import Mathlib

/-!
Verification development for the hyphy-mcp repository.

The embedding models `src/python-mcp-server/src/server.py` (the same core
functions appear verbatim in `src/hyphy-mcp/server.py`).  Network and file
system effects are represented by an `Api` oracle plus an explicit log of
the HTTP requests a function issues; Python dictionaries are association
lists of `JVal` values in insertion order; Python exceptions are `Except`
values that the tool-level try/except blocks convert to error dictionaries.
-/

/-- JSON-like values, modelling Python dict/list/str/number/bool/None data
that flows through the server. Objects keep insertion order, as Python
dicts do. -/
inductive JVal where
  | str : String → JVal
  | num : ℚ → JVal
  | bool : Bool → JVal
  | null : JVal
  | arr : List JVal → JVal
  | obj : List (String × JVal) → JVal

/-- A Python dictionary with string keys, in insertion order. -/
abbrev JObj := List (String × JVal)

/-- Dictionary lookup, `d.get(k)` / `d[k]` success case. -/
def jget (o : JObj) (k : String) : Option JVal :=
  (o.find? (fun p => p.1 == k)).map (fun p => p.2)

/-- Membership test `k in d` on a Python dict. -/
def hasKey (o : JObj) (k : String) : Bool :=
  (jget o k).isSome

/-- Python truthiness of a value, used by `if kwargs.get(...)` style guards
(server.py lines 133-138 and 278-283). -/
def JVal.truthy : JVal → Bool
  | .str s => s ≠ ""
  | .num q => q ≠ 0
  | .bool b => b
  | .null => false
  | .arr l => ¬ l.isEmpty
  | .obj l => ¬ l.isEmpty

/-- Equality test of a value against a string literal, as in Python
`value == "completed"`: only a str compares equal to a str. -/
def JVal.isStr : JVal → String → Bool
  | .str t, s => t = s
  | _, _ => false

/-- Result of one HTTP exchange as seen by the server: either a JSON object
body after a 2xx status, or an exception message (connection failure or
`raise_for_status`). -/
inductive HttpResult where
  | ok : JObj → HttpResult
  | err : String → HttpResult

/-- Requests the server can issue, recorded in an observation log. The
`attempt` index on the poll request distinguishes successive polls. -/
inductive Request where
  | healthCheck : Request
  | postDatasets : String → Request
  | methodStart : String → JVal → Request
  | getJobStatus : String → Request
  | getJobResults : String → Request
  | pollMethodResult : String → String → Nat → Request

/-- Environment oracle: configuration (server.py lines 21-27), responses of
the remote Datamonkey API and the local file system. `pollResult` gives the
body of `GET /methods/{m}-result` as a function of the polling attempt. -/
structure Api where
  apiUrl : String
  apiPort : Nat
  health : HttpResult
  fileExists : String → Bool
  fileSize : String → Nat
  datasets : String → HttpResult
  methodStart : String → JVal → HttpResult
  jobStatus : String → HttpResult
  jobResults : String → HttpResult
  pollResult : String → Nat → HttpResult

/-- Full API URL, `get_api_url` (server.py lines 30-32). -/
def get_api_url (api : Api) : String :=
  api.apiUrl ++ ":" ++ toString api.apiPort ++ "/api/v1"

/-- Message of the ConnectionError raised by
`ensure_datamonkey_api_connection` (server.py lines 35-46). -/
def connErrMsg (api : Api) (m : String) : String :=
  "Could not connect to Datamonkey API at " ++ get_api_url api ++
  ". Error: " ++ m ++
  ". Please ensure the API is running and the URL/port are correct."

/-- The `{status: error, error: msg}` dictionary produced by the except
blocks of the tool functions. -/
def errObj (m : String) : JObj :=
  [("status", JVal.str "error"), ("error", JVal.str m)]

/-- Model of `str(e)` for a Python KeyError on key `k`. The exact quoting
Python uses is immaterial to every claim; only the fact that an error
response is produced matters. -/
def keyErrorMsg (k : String) : String :=
  "KeyError: " ++ k

mutual

/-- Renders a value roughly as Python str() would, for error messages that
embed a response body. No claim depends on the exact text. -/
def JVal.render : JVal → String
  | .str s => "\x27" ++ s ++ "\x27"
  | .num q => toString q
  | .bool b => if b then "True" else "False"
  | .null => "None"
  | .arr l => "[" ++ JVal.renderElems l ++ "]"
  | .obj l => "\x7b" ++ JVal.renderFields l ++ "\x7d"

/-- Comma-separated rendering of list elements. -/
def JVal.renderElems : List JVal → String
  | [] => ""
  | [v] => JVal.render v
  | v :: rest => JVal.render v ++ ", " ++ JVal.renderElems rest

/-- Comma-separated rendering of dict entries. -/
def JVal.renderFields : List (String × JVal) → String
  | [] => ""
  | [(k, v)] => "\x27" ++ k ++ "\x27: " ++ JVal.render v
  | (k, v) :: rest => "\x27" ++ k ++ "\x27: " ++ JVal.render v ++ ", " ++ JVal.renderFields rest

end

/-- Message "Invalid response from Datamonkey API: {body}" (server.py
lines 85, 151, 295). -/
def invalidRespMsg (body : JObj) : String :=
  "Invalid response from Datamonkey API: " ++ (JVal.obj body).render

/-- String rendering of a job identifier interpolated into URLs and file
names. -/
def jvalAsId : JVal → String
  | .str s => s
  | v => v.render

/-- Last path component, `os.path.basename`. -/
def pyBasename (p : String) : String :=
  (p.splitOn "/").getLastD ""

/-- Tool `upload_file_to_datamonkey` (server.py lines 49-102).  Returns the
response dictionary and the log of requests issued.  The function first
runs `ensure_datamonkey_api_connection` (a health check), then tests the
path, then posts the file; every exception is caught by the surrounding
try/except and converted to an error dictionary. -/
def upload_file_to_datamonkey (api : Api) (file_path : String) : JObj × List Request :=
  match api.health with
  | .err m => (errObj (connErrMsg api m), [.healthCheck])
  | .ok _ =>
    if api.fileExists file_path then
      match api.datasets file_path with
      | .err m => (errObj m, [.healthCheck, .postDatasets file_path])
      | .ok response_data =>
        match jget response_data "id" with
        | none =>
            (errObj (invalidRespMsg response_data),
             [.healthCheck, .postDatasets file_path])
        | some file_handle =>
            ([("status", JVal.str "success"),
              ("file_handle", file_handle),
              ("file_name", JVal.str (pyBasename file_path)),
              ("file_size", JVal.num (api.fileSize file_path))],
             [.healthCheck, .postDatasets file_path])
    else
      (errObj ("File not found: " ++ file_path), [.healthCheck])

/-- Response dictionary of an upload, ignoring the request log. -/
def uploadVal (api : Api) (p : String) : JObj :=
  (upload_file_to_datamonkey api p).1

/-- Method-specific parameter section of the job-start payload built by
`run_hyphy_method_sync` (lines 132-138) and, identically, by
`run_hyphy_method_async_worker` (lines 277-283): BUSTED adds `branches`
and FEL/MEME add `pvalue`, in both cases only when the value in `kwargs`
is present and truthy. -/
def addMethodParams (method : String) (kwargs : JObj) (p : JObj) : JObj :=
  if method = "BUSTED" then
    match jget kwargs "branches" with
    | some v => if v.truthy then p ++ [("branches", v)] else p
    | none => p
  else if method = "FEL" ∨ method = "MEME" then
    match jget kwargs "pvalue" with
    | some v => if v.truthy then p ++ [("pvalue", v)] else p
    | none => p
  else p

/-- Job-start payload built from the upload results by
`run_hyphy_method_sync` (lines 124-138) and `run_hyphy_method_async_worker`
(lines 269-283).  Note that the `alignment` and `tree` values are the whole
dictionaries returned by `upload_file_to_datamonkey`, not the handle
strings; the `tree` entry is added when the tree upload result is truthy,
which for a dictionary means non-empty. -/
def startPayloadBase (alignment_handle : JObj) (tree_handle : Option JObj) :
    JObj :=
  let p0 : JObj := [("alignment", JVal.obj alignment_handle)]
  match tree_handle with
  | some t => if (JVal.obj t).truthy then p0 ++ [("tree", JVal.obj t)] else p0
  | none => p0

/-- The complete job-start payload: the base section above followed by the
method-specific parameters. -/
def startPayload (alignment_handle : JObj) (tree_handle : Option JObj)
    (method : String) (kwargs : JObj) : JObj :=
  addMethodParams method kwargs (startPayloadBase alignment_handle tree_handle)

/-- The payload the worker or the synchronous path sends for the given
inputs, expressed directly in terms of the environment. -/
def buildStartPayload (api : Api) (method : String) (alignment_file : String)
    (tree_file : Option String) (kwargs : JObj) : JObj :=
  startPayload (uploadVal api alignment_file)
    (tree_file.map (uploadVal api)) method kwargs

/-- Fields of a job record in `datamonkey_state["jobs"]` that the worker
mutates (server.py lines 262, 300-311). -/
inductive JobField where
  | status : JobField
  | error : JobField
  | datamonkeyJobId : JobField
  | outputFile : JobField

/-- One mutation of the job record performed by the background worker. -/
structure RegWrite where
  field : JobField
  val : JVal

/-- Observable effects of one background worker run: the sequence of job
record mutations and the HTTP requests issued. -/
structure WorkerEffects where
  writes : List RegWrite
  requests : List Request

/-- Background worker `run_hyphy_method_async_worker` (server.py lines
258-311).  The record for `job_id` was inserted by `run_hyphy_method_async`
(lines 229-240) before the worker thread starts, and `temp_dir` was
created there (lines 222-223), so both are assumed present.  On any
exception the except block records status "error" followed by the error
message. -/
def run_hyphy_method_async_worker (api : Api) (tempDir : String)
    (method alignment_file : String) (tree_file : Option String)
    (kwargs : JObj) : WorkerEffects :=
  let w0 : List RegWrite := [⟨.status, JVal.str "running"⟩]
  let up := upload_file_to_datamonkey api alignment_file
  let tup := tree_file.map (upload_file_to_datamonkey api)
  let payload := startPayload up.1 (tup.map (fun x => x.1)) method kwargs
  let endpoint := method.toLower ++ "-start"
  let reqs := up.2 ++ (match tup with | some x => x.2 | none => []) ++
    [Request.methodStart endpoint (JVal.obj payload)]
  match api.methodStart endpoint (JVal.obj payload) with
  | .err m =>
      ⟨w0 ++ [⟨.status, JVal.str "error"⟩, ⟨.error, JVal.str m⟩], reqs⟩
  | .ok job_data =>
    match jget job_data "job_id" with
    | none =>
        ⟨w0 ++ [⟨.status, JVal.str "error"⟩,
                ⟨.error, JVal.str (invalidRespMsg job_data)⟩], reqs⟩
    | some jid =>
        let output_file :=
          tempDir ++ "/" ++ method ++ "_" ++ jvalAsId jid ++ ".json"
        ⟨w0 ++ [⟨.datamonkeyJobId, jid⟩,
                ⟨.outputFile, JVal.str output_file⟩], reqs⟩

/-- Test `status_data.get("status") == s` (server.py lines 170, 190). -/
def statusIs (d : JObj) (s : String) : Bool :=
  match jget d "status" with
  | some v => v.isStr s
  | none => false

/-- Timeout message raised when the polling loop is exhausted (server.py
line 200); `max_attempts * poll_interval = 60 * 10`. -/
def timeoutMsg (method : String) : String :=
  "Datamonkey " ++ method ++ " analysis timed out after " ++
  toString (60 * 10) ++ " seconds"

/-- Message the outer except block of `run_hyphy_method_sync` wraps every
exception in before re-raising (server.py line 204). -/
def syncWrapMsg (method : String) (e : String) : String :=
  "Failed to run " ++ method ++ " job with Datamonkey API: " ++ e

/-- Error raised by `os.path.join(None, ...)` when `temp_dir` was never
created; the exact text is immaterial. -/
def joinNoneMsg : String :=
  "expected str, bytes or os.PathLike object, not NoneType"

/-- Polling loop of `run_hyphy_method_sync` (server.py lines 156-200).
`fuel` is the number of attempts remaining (initially `max_attempts = 60`)
and `attempt` the index of the next attempt; each non-terminal poll sleeps
`poll_interval = 10` seconds.  Returns the raw (unwrapped) outcome, the
poll requests issued and the seconds slept. -/
def syncPollLoop (api : Api) (tempDir : Option String) (method : String)
    (jid : JVal) : Nat → Nat → Except String JObj × List Request × Nat
  | 0, _ => (.error (timeoutMsg method), [], 0)
  | fuel + 1, attempt =>
    let req := Request.pollMethodResult method.toLower (jvalAsId jid) attempt
    match api.pollResult (jvalAsId jid) attempt with
    | .err m => (.error m, [req], 0)
    | .ok status_data =>
      if statusIs status_data "completed" then
        match tempDir with
        | none => (.error joinNoneMsg, [req], 0)
        | some td =>
          let output_file :=
            td ++ "/" ++ method ++ "_" ++ jvalAsId jid ++ ".json"
          (.ok [("status", JVal.str "success"),
                ("method", JVal.str method),
                ("results", JVal.obj status_data),
                ("output_file", JVal.str output_file),
                ("job_id", jid)],
           [req], 0)
      else if statusIs status_data "error" then
        let em := match jget status_data "error_message" with
          | some (JVal.str s) => s
          | some v => v.render
          | none => "Unknown error"
        (.error ("Datamonkey " ++ method ++ " analysis failed: " ++ em),
         [req], 0)
      else
        let rest := syncPollLoop api tempDir method jid fuel (attempt + 1)
        (rest.1, req :: rest.2.1, rest.2.2 + 10)

/-- Outcome of the synchronous path: the returned or raised value, the
request log, and the total seconds spent in `time.sleep`. -/
structure SyncOut where
  result : Except String JObj
  requests : List Request
  sleptSeconds : Nat

/-- Synchronous path `run_hyphy_method_sync` (server.py lines 105-204).
The initial `ensure_datamonkey_api_connection` and the two uploads happen
before the try block; everything raised inside the try block is re-raised
as a RuntimeError wrapping the original message. -/
def run_hyphy_method_sync (api : Api) (tempDir : Option String)
    (method alignment_file : String) (tree_file : Option String)
    (kwargs : JObj) : SyncOut :=
  match api.health with
  | .err m => ⟨.error (connErrMsg api m), [.healthCheck], 0⟩
  | .ok _ =>
    let up := upload_file_to_datamonkey api alignment_file
    let tup := tree_file.map (upload_file_to_datamonkey api)
    let payload := startPayload up.1 (tup.map (fun x => x.1)) method kwargs
    let endpoint := method.toLower ++ "-start"
    let preReqs := [Request.healthCheck] ++ up.2 ++
      (match tup with | some x => x.2 | none => []) ++
      [Request.methodStart endpoint (JVal.obj payload)]
    match api.methodStart endpoint (JVal.obj payload) with
    | .err m => ⟨.error (syncWrapMsg method m), preReqs, 0⟩
    | .ok job_data =>
      match jget job_data "job_id" with
      | none =>
          ⟨.error (syncWrapMsg method (invalidRespMsg job_data)), preReqs, 0⟩
      | some jid =>
        let loop := syncPollLoop api tempDir method jid 60 0
        let res := match loop.1 with
          | .ok v => Except.ok v
          | .error e => Except.error (syncWrapMsg method e)
        ⟨res, preReqs ++ loop.2.1, loop.2.2⟩

/-- Count of status-poll requests in a request log. -/
def countPolls (l : List Request) : Nat :=
  l.countP (fun r => match r with
    | .pollMethodResult _ _ _ => true
    | _ => false)

/-- Tool `check_datamonkey_job_status` (server.py lines 586-649).  The
function queries the remote API for the given id; it never reads the local
`datamonkey_state["jobs"]` registry.  File writes for `save_to` are
modelled as succeeding. -/
def check_datamonkey_job_status (api : Api) (job_id : String) :
    JObj × List Request :=
  match api.health with
  | .err m => (errObj (connErrMsg api m), [.healthCheck])
  | .ok _ =>
    match api.jobStatus job_id with
    | .err m => (errObj m, [.healthCheck, .getJobStatus job_id])
    | .ok job_status_data =>
      match jget job_status_data "status" with
      | none =>
          (errObj (keyErrorMsg "status"),
           [.healthCheck, .getJobStatus job_id])
      | some st =>
        let response : JObj := [("status", st), ("job_id", JVal.str job_id)]
        if st.isStr "error" then
          (response ++
            [("error", (jget job_status_data "error_message").getD
              (JVal.str "Unknown error"))],
           [.healthCheck, .getJobStatus job_id])
        else if st.isStr "queued" ∨ st.isStr "running" then
          (response, [.healthCheck, .getJobStatus job_id])
        else if st.isStr "completed" then
          match api.jobResults job_id with
          | .err m =>
              (errObj m,
               [.healthCheck, .getJobStatus job_id, .getJobResults job_id])
          | .ok results =>
            let r1 := response ++ [("results", JVal.obj results)]
            let r2 := match jget job_status_data "save_to" with
              | some sv => r1 ++ [("output_file", sv)]
              | none => r1
            (r2, [.healthCheck, .getJobStatus job_id, .getJobResults job_id])
        else
          (response, [.healthCheck, .getJobStatus job_id])

/-- One entry of the static method catalogue (server.py lines 1784-1855). -/
def methodEntry (name full desc : String) : JVal :=
  JVal.obj [("name", JVal.str name), ("full_name", JVal.str full),
            ("description", JVal.str desc)]

/-- The static list returned by `get_available_methods`. -/
def availableMethodsList : List JVal :=
  [methodEntry "ABSREL" "Adaptive Branch-Site Random Effects Likelihood"
     "Tests for evidence of episodic diversifying selection on a per-branch basis",
   methodEntry "BGM" "Bayesian Graphical Model"
     "Infers patterns of conditional dependence among sites in an alignment",
   methodEntry "BUSTED" "Branch-Site Unrestricted Statistical Test for Episodic Diversification"
     "Tests for evidence of episodic positive selection on a subset of branches",
   methodEntry "CONTRAST-FEL" "Contrast Fixed Effects Likelihood"
     "Tests for differences in selective pressures between two sets of branches",
   methodEntry "FADE" "FUBAR Approach to Directional Evolution"
     "Detects directional selection using a Bayesian approach",
   methodEntry "FEL" "Fixed Effects Likelihood"
     "Detects sites under selection by estimating nonsynonymous and synonymous substitution rates at each site",
   methodEntry "FUBAR" "Fast Unconstrained Bayesian AppRoximation"
     "Detects sites under selection using a Bayesian approach that is typically faster than FEL",
   methodEntry "GARD" "Genetic Algorithm for Recombination Detection"
     "Identifies recombination breakpoints in an alignment",
   methodEntry "MEME" "Mixed Effects Model of Evolution"
     "Detects sites under episodic selection by allowing the nonsynonymous rate to vary across lineages at individual sites",
   methodEntry "MULTIHIT" "Multi-Hit Model"
     "Fits a codon model that accounts for multiple nucleotide substitutions",
   methodEntry "NRM" "Nucleotide Rate Matrix"
     "Estimates a general nucleotide substitution model from data",
   methodEntry "RELAX" "Relaxation Test"
     "Tests for relaxation or intensification of selection on a specified set of branches",
   methodEntry "SLAC" "Single-Likelihood Ancestor Counting"
     "Counts ancestral mutations to infer selection at individual sites",
   methodEntry "SLATKIN" "Slatkin\x27s Exact Test"
     "Tests for neutrality using Slatkin's exact test"]

/-- Tool `get_available_methods` (server.py lines 1774-1859, and lines
855-885 of src/hyphy-mcp/server.py with a shorter catalogue).  Unlike every
other tool it has no try/except: the ConnectionError raised by
`ensure_datamonkey_api_connection` propagates to the caller, which the
`Except.error` result models. -/
def get_available_methods (api : Api) : Except String JObj × List Request :=
  match api.health with
  | .err m => (.error (connErrMsg api m), [.healthCheck])
  | .ok _ => (.ok [("methods", JVal.arr availableMethodsList)], [.healthCheck])

/-- A record of `datamonkey_state["jobs"]` as created by
`run_hyphy_method_async` (server.py lines 229-240). -/
structure JobRecord where
  method : String
  alignment_file : String
  tree_file : Option String
  kwargs : JObj
  status : String
  start_time : ℚ
  results : Option JVal
  error : Option String
  datamonkey_job_id : Option JVal
  output_file : Option String

/-- Registry lookup `datamonkey_state["jobs"].get(id)`. -/
def lookupJob (jobs : List (String × JobRecord)) (id : String) :
    Option JobRecord :=
  (jobs.find? (fun p => p.1 == id)).map (fun p => p.2)

/-- The fresh record `run_hyphy_method_async` inserts before spawning the
worker (server.py lines 229-240). -/
def newJobRecord (method alignment_file : String) (tree_file : Option String)
    (kwargs : JObj) (now : ℚ) : JobRecord :=
  { method := method
    alignment_file := alignment_file
    tree_file := tree_file
    kwargs := kwargs
    status := "queued"
    start_time := now
    results := none
    error := none
    datamonkey_job_id := none
    output_file := none }

/-- The kwargs dictionary `run_fel` passes to `run_hyphy_method` (server.py
line 456); the worker receives it unchanged (lines 245, 329, 457). -/
def runFelKwargs (pvalue : ℚ) : JObj :=
  [("pvalue", JVal.num pvalue)]

/-- The kwargs the worker receives for a `run_fel` call where the caller
may have omitted `pvalue`: Python fills in the declared default `0.1`
(server.py line 441), so an omitted value is indistinguishable from an
explicit `0.1` by the time the payload is built. -/
def runFelKwargsOfCall (pvalue : Option ℚ) : JObj :=
  runFelKwargs (pvalue.getD (1 / 10))

/-- Rendering of an optional string argument inside the `input` echo of a
start tool response. -/
def optStr : Option String → JVal
  | some s => JVal.str s
  | none => JVal.null

/-- The `h = upload_file_to_datamonkey(p); if "error" in h: return h` step
every `start_*_job` tool performs for each of its files (for example
server.py lines 669-678). `Except.error` carries the early-returned
dictionary. -/
def uploadCheckStep (api : Api) (p : String) : Except JObj JObj :=
  let h := uploadVal api p
  if hasKey h "error" then .error h else .ok h

/-- Final segment shared by every `start_*_job` tool (for example
server.py lines 693-719): POST the payload to the method endpoint, demand
a `job_id`, and either return the accepted response or an error
dictionary; any exception was caught by the surrounding try/except. -/
def finishStartJob (api : Api) (endpoint : String) (payload : JObj)
    (noJobIdMsg okMsg : String) (input : JObj) : JObj :=
  match api.methodStart endpoint (JVal.obj payload) with
  | .err m => errObj m
  | .ok job_data =>
    match jget job_data "job_id" with
    | none => errObj noJobIdMsg
    | some jid =>
        [("status", JVal.str "accepted"), ("job_id", jid),
         ("message", JVal.str okMsg), ("input", JVal.obj input)]

/-- Tool `start_fel_job` (server.py lines 652-725).  The payload indexes
the upload result dictionaries with the key "handle", which
`upload_file_to_datamonkey` never produces (its success keys are status,
file_handle, file_name, file_size), so building the payload raises a
KeyError that the except block converts to an error response. -/
def start_fel_job (api : Api) (alignment_file : String)
    (tree_file branches : Option String) (pvalue : ℚ) : JObj :=
  match api.health with
  | .err m => errObj (connErrMsg api m)
  | .ok _ =>
    match uploadCheckStep api alignment_file with
    | .error r => r
    | .ok ah =>
      let tstep : Except JObj (Option JObj) := match tree_file with
        | some t =>
          match uploadCheckStep api t with
          | .error r => .error r
          | .ok th => .ok (some th)
        | none => .ok none
      match tstep with
      | .error r => r
      | .ok th =>
        match jget ah "handle" with
        | none => errObj (keyErrorMsg "handle")
        | some av =>
          let p0 : JObj := [("alignment", av), ("pvalue", JVal.num pvalue)]
          let p1 : Option JObj := match th with
            | some t =>
              match jget t "handle" with
              | none => none
              | some tv => some (p0 ++ [("tree", tv)])
            | none => some p0
          match p1 with
          | none => errObj (keyErrorMsg "handle")
          | some p1 =>
            let p2 := match branches with
              | some b => if b = "" then p1 else p1 ++ [("branches", JVal.str b)]
              | none => p1
            finishStartJob api "fel-start" p2
              "Failed to start FEL job: No job_id in response"
              "FEL analysis started on Datamonkey API. Use check_datamonkey_job_status to monitor progress."
              [("file", JVal.str alignment_file), ("tree", optStr tree_file),
               ("pvalue", JVal.num pvalue), ("branches", optStr branches)]

/-- Tool `start_meme_job` (server.py lines 728-801), identical in shape to
`start_fel_job` and with the same "handle" KeyError. -/
def start_meme_job (api : Api) (alignment_file : String)
    (tree_file branches : Option String) (pvalue : ℚ) : JObj :=
  match api.health with
  | .err m => errObj (connErrMsg api m)
  | .ok _ =>
    match uploadCheckStep api alignment_file with
    | .error r => r
    | .ok ah =>
      let tstep : Except JObj (Option JObj) := match tree_file with
        | some t =>
          match uploadCheckStep api t with
          | .error r => .error r
          | .ok th => .ok (some th)
        | none => .ok none
      match tstep with
      | .error r => r
      | .ok th =>
        match jget ah "handle" with
        | none => errObj (keyErrorMsg "handle")
        | some av =>
          let p0 : JObj := [("alignment", av), ("pvalue", JVal.num pvalue)]
          let p1 : Option JObj := match th with
            | some t =>
              match jget t "handle" with
              | none => none
              | some tv => some (p0 ++ [("tree", tv)])
            | none => some p0
          match p1 with
          | none => errObj (keyErrorMsg "handle")
          | some p1 =>
            let p2 := match branches with
              | some b => if b = "" then p1 else p1 ++ [("branches", JVal.str b)]
              | none => p1
            finishStartJob api "meme-start" p2
              "Failed to start MEME job: No job_id in response"
              "MEME analysis started on Datamonkey API. Use check_datamonkey_job_status to monitor progress."
              [("file", JVal.str alignment_file), ("tree", optStr tree_file),
               ("pvalue", JVal.num pvalue), ("branches", optStr branches)]

/-- Tool `start_absrel_job` (server.py lines 854-932); the tree file is
required.  Same "handle" KeyError as `start_fel_job`. -/
def start_absrel_job (api : Api) (alignment_file tree_file : String)
    (branches : Option String) (srv multiple_hits genetic_code : String) :
    JObj :=
  match api.health with
  | .err m => errObj (connErrMsg api m)
  | .ok _ =>
    match uploadCheckStep api alignment_file with
    | .error r => r
    | .ok ah =>
      match uploadCheckStep api tree_file with
      | .error r => r
      | .ok th =>
        match jget ah "handle" with
        | none => errObj (keyErrorMsg "handle")
        | some av =>
          match jget th "handle" with
          | none => errObj (keyErrorMsg "handle")
          | some tv =>
            let p0 : JObj :=
              [("alignment", av), ("tree", tv), ("srv", JVal.str srv),
               ("multiple_hits", JVal.str multiple_hits),
               ("genetic_code", JVal.str genetic_code)]
            let p1 := match branches with
              | some b =>
                if b = "" then p0
                else p0 ++ [("branches",
                  JVal.arr ((b.splitOn ",").map JVal.str))]
              | none => p0
            finishStartJob api "absrel-start" p1
              "Failed to start ABSREL job: No job_id in response"
              "ABSREL analysis started on Datamonkey API. Use check_datamonkey_job_status to monitor progress."
              [("file", JVal.str alignment_file), ("tree", JVal.str tree_file),
               ("branches", optStr branches), ("srv", JVal.str srv),
               ("multiple_hits", JVal.str multiple_hits),
               ("genetic_code", JVal.str genetic_code)]

/-- Tool `start_bgm_job` (server.py lines 935-1020); tree required, no
conditional parameters.  Same "handle" KeyError. -/
def start_bgm_job (api : Api) (alignment_file tree_file : String)
    (data_type genetic_code : String)
    (steps burn_in samples max_parents min_subs : ℤ) : JObj :=
  match api.health with
  | .err m => errObj (connErrMsg api m)
  | .ok _ =>
    match uploadCheckStep api alignment_file with
    | .error r => r
    | .ok ah =>
      match uploadCheckStep api tree_file with
      | .error r => r
      | .ok th =>
        match jget ah "handle" with
        | none => errObj (keyErrorMsg "handle")
        | some av =>
          match jget th "handle" with
          | none => errObj (keyErrorMsg "handle")
          | some tv =>
            finishStartJob api "bgm-start"
              [("alignment", av), ("tree", tv),
               ("data_type", JVal.str data_type),
               ("genetic_code", JVal.str genetic_code),
               ("steps", JVal.num steps), ("burn_in", JVal.num burn_in),
               ("samples", JVal.num samples),
               ("max_parents", JVal.num max_parents),
               ("min_subs", JVal.num min_subs)]
              "Failed to start BGM job: No job_id in response"
              "BGM analysis started on Datamonkey API. Use check_datamonkey_job_status to monitor progress."
              [("file", JVal.str alignment_file), ("tree", JVal.str tree_file),
               ("data_type", JVal.str data_type),
               ("genetic_code", JVal.str genetic_code),
               ("steps", JVal.num steps), ("burn_in", JVal.num burn_in),
               ("samples", JVal.num samples),
               ("max_parents", JVal.num max_parents),
               ("min_subs", JVal.num min_subs)]

/-- Tool `start_contrast_fel_job` (server.py lines 1023-1106). -/
def start_contrast_fel_job (api : Api) (alignment_file tree_file : String)
    (branch_sets genetic_code srv permutations : String)
    (p_value q_value : ℚ) : JObj :=
  match api.health with
  | .err m => errObj (connErrMsg api m)
  | .ok _ =>
    match uploadCheckStep api alignment_file with
    | .error r => r
    | .ok ah =>
      match uploadCheckStep api tree_file with
      | .error r => r
      | .ok th =>
        match jget ah "handle" with
        | none => errObj (keyErrorMsg "handle")
        | some av =>
          match jget th "handle" with
          | none => errObj (keyErrorMsg "handle")
          | some tv =>
            finishStartJob api "contrast-fel-start"
              [("alignment", av), ("tree", tv),
               ("branch_sets",
                JVal.arr ((branch_sets.splitOn ",").map JVal.str)),
               ("genetic_code", JVal.str genetic_code),
               ("srv", JVal.str srv),
               ("permutations", JVal.str permutations),
               ("p_value", JVal.num p_value),
               ("q_value", JVal.num q_value)]
              "Failed to start CONTRAST-FEL job: No job_id in response"
              "CONTRAST-FEL analysis started on Datamonkey API. Use check_datamonkey_job_status to monitor progress."
              [("file", JVal.str alignment_file), ("tree", JVal.str tree_file),
               ("branch_sets", JVal.str branch_sets),
               ("genetic_code", JVal.str genetic_code),
               ("srv", JVal.str srv),
               ("permutations", JVal.str permutations),
               ("p_value", JVal.num p_value),
               ("q_value", JVal.num q_value)]

/-- Tool `start_fade_job` (server.py lines 1109-1174). -/
def start_fade_job (api : Api) (alignment_file tree_file : String)
    (bayes_factor_threshold : ℤ) : JObj :=
  match api.health with
  | .err m => errObj (connErrMsg api m)
  | .ok _ =>
    match uploadCheckStep api alignment_file with
    | .error r => r
    | .ok ah =>
      match uploadCheckStep api tree_file with
      | .error r => r
      | .ok th =>
        match jget ah "handle" with
        | none => errObj (keyErrorMsg "handle")
        | some av =>
          match jget th "handle" with
          | none => errObj (keyErrorMsg "handle")
          | some tv =>
            finishStartJob api "fade-start"
              [("alignment", av), ("tree", tv),
               ("bayes_factor_threshold", JVal.num bayes_factor_threshold)]
              "Failed to start FADE job: No job_id in response"
              "FADE analysis started on Datamonkey API. Use check_datamonkey_job_status to monitor progress."
              [("file", JVal.str alignment_file), ("tree", JVal.str tree_file),
               ("bayes_factor_threshold", JVal.num bayes_factor_threshold)]

/-- Tool `start_fubar_job` (server.py lines 1177-1262); validates its
numeric parameters before the uploads. -/
def start_fubar_job (api : Api) (alignment_file tree_file : String)
    (genetic_code : String) (grid_points : ℤ)
    (concentration_parameter : ℚ) : JObj :=
  match api.health with
  | .err m => errObj (connErrMsg api m)
  | .ok _ =>
    if grid_points < 5 ∨ grid_points > 50 then
      errObj "Grid points must be between 5 and 50"
    else if concentration_parameter < 1 / 1000 ∨ concentration_parameter > 1 then
      errObj "Concentration parameter must be between 0.001 and 1"
    else
      match uploadCheckStep api alignment_file with
      | .error r => r
      | .ok ah =>
        match uploadCheckStep api tree_file with
        | .error r => r
        | .ok th =>
          match jget ah "handle" with
          | none => errObj (keyErrorMsg "handle")
          | some av =>
            match jget th "handle" with
            | none => errObj (keyErrorMsg "handle")
            | some tv =>
              finishStartJob api "fubar-start"
                [("alignment", av), ("tree", tv),
                 ("genetic_code", JVal.str genetic_code),
                 ("grid_points", JVal.num grid_points),
                 ("concentration_parameter", JVal.num concentration_parameter)]
                "Failed to start FUBAR job: No job_id in response"
                "FUBAR analysis started on Datamonkey API. Use check_datamonkey_job_status to monitor progress."
                [("file", JVal.str alignment_file),
                 ("tree", JVal.str tree_file),
                 ("genetic_code", JVal.str genetic_code),
                 ("grid_points", JVal.num grid_points),
                 ("concentration_parameter", JVal.num concentration_parameter)]

/-- Tool `start_gard_job` (server.py lines 1265-1339); only an alignment
file is uploaded. -/
def start_gard_job (api : Api) (alignment_file : String)
    (genetic_code data_type run_mode site_to_site_variation : String)
    (rate_classes : ℤ) (model : String) : JObj :=
  match api.health with
  | .err m => errObj (connErrMsg api m)
  | .ok _ =>
    match uploadCheckStep api alignment_file with
    | .error r => r
    | .ok ah =>
      match jget ah "handle" with
      | none => errObj (keyErrorMsg "handle")
      | some av =>
        finishStartJob api "gard-start"
          [("alignment", av), ("genetic_code", JVal.str genetic_code),
           ("data_type", JVal.str data_type),
           ("run_mode", JVal.str run_mode),
           ("site_to_site_variation", JVal.str site_to_site_variation),
           ("rate_classes", JVal.num rate_classes),
           ("model", JVal.str model)]
          "Failed to start GARD job: No job_id in response"
          "GARD analysis started on Datamonkey API. Use check_datamonkey_job_status to monitor progress."
          [("file", JVal.str alignment_file),
           ("genetic_code", JVal.str genetic_code),
           ("data_type", JVal.str data_type),
           ("run_mode", JVal.str run_mode),
           ("site_to_site_variation", JVal.str site_to_site_variation),
           ("rate_classes", JVal.num rate_classes),
           ("model", JVal.str model)]

/-- Tool `start_multihit_job` (server.py lines 1342-1413). -/
def start_multihit_job (api : Api) (alignment_file : String)
    (genetic_code triple_islands : String) (rate_classes : ℤ) : JObj :=
  match api.health with
  | .err m => errObj (connErrMsg api m)
  | .ok _ =>
    if rate_classes < 1 ∨ rate_classes > 10 then
      errObj "Rate classes must be between 1 and 10"
    else
      match uploadCheckStep api alignment_file with
      | .error r => r
      | .ok ah =>
        match jget ah "handle" with
        | none => errObj (keyErrorMsg "handle")
        | some av =>
          finishStartJob api "multihit-start"
            [("alignment", av), ("genetic_code", JVal.str genetic_code),
             ("triple_islands", JVal.str triple_islands),
             ("rate_classes", JVal.num rate_classes)]
            "Failed to start MULTIHIT job: No job_id in response"
            "MULTIHIT analysis started on Datamonkey API. Use check_datamonkey_job_status to monitor progress."
            [("file", JVal.str alignment_file),
             ("genetic_code", JVal.str genetic_code),
             ("triple_islands", JVal.str triple_islands),
             ("rate_classes", JVal.num rate_classes)]

/-- Tool `start_nrm_job` (server.py lines 1416-1485). -/
def start_nrm_job (api : Api) (alignment_file tree_file : String)
    (genetic_code : String) (save_fit : Bool) : JObj :=
  match api.health with
  | .err m => errObj (connErrMsg api m)
  | .ok _ =>
    match uploadCheckStep api alignment_file with
    | .error r => r
    | .ok ah =>
      match uploadCheckStep api tree_file with
      | .error r => r
      | .ok th =>
        match jget ah "handle" with
        | none => errObj (keyErrorMsg "handle")
        | some av =>
          match jget th "handle" with
          | none => errObj (keyErrorMsg "handle")
          | some tv =>
            finishStartJob api "nrm-start"
              [("alignment", av), ("tree", tv),
               ("genetic_code", JVal.str genetic_code),
               ("save_fit", JVal.bool save_fit)]
              "Failed to start NRM job: No job_id in response"
              "NRM analysis started on Datamonkey API. Use check_datamonkey_job_status to monitor progress."
              [("file", JVal.str alignment_file), ("tree", JVal.str tree_file),
               ("genetic_code", JVal.str genetic_code),
               ("save_fit", JVal.bool save_fit)]

/-- Tool `start_relax_job` (server.py lines 1488-1576); the branch lists
default to empty when not supplied. -/
def start_relax_job (api : Api) (alignment_file tree_file : String)
    (genetic_code : String)
    (test_branches reference_branches : Option (List String))
    (models : String) (rates : ℤ) (kill_zero_lengths : String) : JObj :=
  match api.health with
  | .err m => errObj (connErrMsg api m)
  | .ok _ =>
    let tb := test_branches.getD []
    let rb := reference_branches.getD []
    match uploadCheckStep api alignment_file with
    | .error r => r
    | .ok ah =>
      match uploadCheckStep api tree_file with
      | .error r => r
      | .ok th =>
        match jget ah "handle" with
        | none => errObj (keyErrorMsg "handle")
        | some av =>
          match jget th "handle" with
          | none => errObj (keyErrorMsg "handle")
          | some tv =>
            finishStartJob api "relax-start"
              [("alignment", av), ("tree", tv),
               ("genetic_code", JVal.str genetic_code),
               ("test_branches", JVal.arr (tb.map JVal.str)),
               ("reference_branches", JVal.arr (rb.map JVal.str)),
               ("models", JVal.str models), ("rates", JVal.num rates),
               ("kill_zero_lengths", JVal.str kill_zero_lengths)]
              "Failed to start RELAX job: No job_id in response"
              "RELAX analysis started on Datamonkey API. Use check_datamonkey_job_status to monitor progress."
              [("file", JVal.str alignment_file), ("tree", JVal.str tree_file),
               ("genetic_code", JVal.str genetic_code),
               ("test_branches", JVal.arr (tb.map JVal.str)),
               ("reference_branches", JVal.arr (rb.map JVal.str)),
               ("models", JVal.str models), ("rates", JVal.num rates),
               ("kill_zero_lengths", JVal.str kill_zero_lengths)]

/-- Tool `start_slac_job` (server.py lines 1579-1667). -/
def start_slac_job (api : Api) (alignment_file tree_file : String)
    (genetic_code branches : String) (samples : ℤ) (pvalue : ℚ) : JObj :=
  match api.health with
  | .err m => errObj (connErrMsg api m)
  | .ok _ =>
    if samples < 1 then
      errObj "Samples must be at least 1"
    else if pvalue < 0 ∨ pvalue > 1 then
      errObj "P-value must be between 0 and 1"
    else
      match uploadCheckStep api alignment_file with
      | .error r => r
      | .ok ah =>
        match uploadCheckStep api tree_file with
        | .error r => r
        | .ok th =>
          match jget ah "handle" with
          | none => errObj (keyErrorMsg "handle")
          | some av =>
            match jget th "handle" with
            | none => errObj (keyErrorMsg "handle")
            | some tv =>
              finishStartJob api "slac-start"
                [("alignment", av), ("tree", tv),
                 ("genetic_code", JVal.str genetic_code),
                 ("branches", JVal.str branches),
                 ("samples", JVal.num samples),
                 ("pvalue", JVal.num pvalue)]
                "Failed to start SLAC job: No job_id in response"
                "SLAC analysis started on Datamonkey API. Use check_datamonkey_job_status to monitor progress."
                [("file", JVal.str alignment_file),
                 ("tree", JVal.str tree_file),
                 ("genetic_code", JVal.str genetic_code),
                 ("branches", JVal.str branches),
                 ("samples", JVal.num samples),
                 ("pvalue", JVal.num pvalue)]

/-- Tool `start_slatkin_job` (server.py lines 1670-1771); only a tree file
is uploaded, after validating the numeric parameters and the compartment
definitions. -/
def start_slatkin_job (api : Api) (tree_file : String) (groups : ℤ)
    (compartment_definitions : Option (List JObj)) (replicates : ℤ)
    (weight : ℚ) (use_bootstrap : Bool) : JObj :=
  match api.health with
  | .err m => errObj (connErrMsg api m)
  | .ok _ =>
    if groups < 2 ∨ groups > 100 then
      errObj "Groups must be between 2 and 100"
    else if replicates < 1 ∨ replicates > 1000000 then
      errObj "Replicates must be between 1 and 1000000"
    else if weight < 0 ∨ weight > 1 then
      errObj "Weight must be between 0 and 1"
    else
      let comps := compartment_definitions.getD []
      if comps.all (fun c => hasKey c "description" && hasKey c "regexp") then
        match uploadCheckStep api tree_file with
        | .error r => r
        | .ok th =>
          match jget th "handle" with
          | none => errObj (keyErrorMsg "handle")
          | some tv =>
            finishStartJob api "slatkin-start"
              [("tree", tv), ("groups", JVal.num groups),
               ("compartment_definitions", JVal.arr (comps.map JVal.obj)),
               ("replicates", JVal.num replicates),
               ("weight", JVal.num weight),
               ("use_bootstrap", JVal.bool use_bootstrap)]
              "Failed to start SLATKIN job: No job_id in response"
              "SLATKIN analysis started on Datamonkey API. Use check_datamonkey_job_status to monitor progress."
              [("tree", JVal.str tree_file), ("groups", JVal.num groups),
               ("compartment_definitions", JVal.arr (comps.map JVal.obj)),
               ("replicates", JVal.num replicates),
               ("weight", JVal.num weight),
               ("use_bootstrap", JVal.bool use_bootstrap)]
      else
        errObj "Each compartment definition must have \x27description\x27 and \x27regexp\x27 fields"

/-- Value of a decimal digit, used by the model of Python int(). -/
def digitVal? (c : Char) : Option Nat :=
  if c = '0' then some 0 else if c = '1' then some 1
  else if c = '2' then some 2 else if c = '3' then some 3
  else if c = '4' then some 4 else if c = '5' then some 5
  else if c = '6' then some 6 else if c = '7' then some 7
  else if c = '8' then some 8 else if c = '9' then some 9 else none

/-- Accumulates decimal digits left to right. -/
def digitsVal? : List Char → Nat → Option Nat
  | [], acc => some acc
  | c :: cs, acc =>
    match digitVal? c with
    | some d => digitsVal? cs (acc * 10 + d)
    | none => none

/-- Model of Python `int(s)` on decimal strings: an optional leading minus
sign followed by at least one digit; anything else raises (none). -/
def pyInt? (s : String) : Option ℤ :=
  match s.data with
  | [] => none
  | List.cons c cs =>
    if c = '-' then
      match cs with
      | [] => none
      | _ => (digitsVal? cs 0).map (fun n => -(n : ℤ))
    else
      (digitsVal? (List.cons c cs) 0).map (fun n => (n : ℤ))

/-- Site classification loop of `run_fel` (server.py lines 476-487): a
site participates when its data is a dict with keys p-value, beta and
alpha; it is counted when `p-value <= pvalue`, appended to the positive
list when `beta > alpha` and to the negative list otherwise, after an
`int(site)` conversion of the key.  A non-numeric field or an unparsable
key raises and is reported through the error branch; evaluation follows
Python order (p-value compared first, beta and alpha only for counted
sites, the key parsed last). -/
def felClassify : JObj → ℚ → Except String (List ℤ × List ℤ)
  | [], _ => .ok ([], [])
  | (site, data) :: rest, pvalue =>
    match data with
    | JVal.obj d =>
      if hasKey d "p-value" && hasKey d "beta" && hasKey d "alpha" then
        match jget d "p-value" with
        | some (JVal.num p) =>
          if p ≤ pvalue then
            match jget d "beta", jget d "alpha" with
            | some (JVal.num b), some (JVal.num a) =>
              if a < b then
                match pyInt? site with
                | some k =>
                  (felClassify rest pvalue).map (fun r => (k :: r.1, r.2))
                | none =>
                  .error ("invalid literal for int with base 10: " ++ site)
              else
                match pyInt? site with
                | some k =>
                  (felClassify rest pvalue).map (fun r => (r.1, k :: r.2))
                | none =>
                  .error ("invalid literal for int with base 10: " ++ site)
            | _, _ =>
              .error "unsupported comparison between non-numeric operands"
          else felClassify rest pvalue
        | _ => .error "unsupported comparison between non-numeric operands"
      else felClassify rest pvalue
    | _ => felClassify rest pvalue

/-- The `if "MLE" in fel_results` guard of `run_fel` (server.py lines
479-480): without an MLE section both site lists stay empty; a non-dict
MLE value has no `.items()` and raises. -/
def felSiteLists (fel_results : JObj) (pvalue : ℚ) :
    Except String (List ℤ × List ℤ) :=
  match jget fel_results "MLE" with
  | some (JVal.obj mle) => felClassify mle pvalue
  | some _ => .error "object has no attribute items"
  | none => .ok ([], [])

/-- The `results` sub-dictionary of the `run_fel` summary (server.py lines
494-499). -/
def felSummaryResults (fel_results : JObj) (pvalue : ℚ) :
    Except String JObj :=
  (felSiteLists fel_results pvalue).map (fun r =>
    [("positive_selection_sites", JVal.arr (r.1.map (fun k => JVal.num k))),
     ("negative_selection_sites", JVal.arr (r.2.map (fun k => JVal.num k))),
     ("total_positive_sites", JVal.num r.1.length),
     ("total_negative_sites", JVal.num r.2.length)])

/-- Builder for one FEL MLE site entry, used only to state theorems about
`felClassify` on well-formed payloads. -/
def mkFelSite (s : String) (p b a : ℚ) : String × JVal :=
  (s, JVal.obj [("p-value", JVal.num p), ("beta", JVal.num b),
                ("alpha", JVal.num a)])

/-- Site selection loop of `run_meme` (server.py lines 552-559): a site
participates when its data is a dict with a p-value key, and is counted
when `p-value <= pvalue`, after an `int(site)` conversion of the key. -/
def memeClassify : JObj → ℚ → Except String (List ℤ)
  | [], _ => .ok []
  | (site, data) :: rest, pvalue =>
    match data with
    | JVal.obj d =>
      if hasKey d "p-value" then
        match jget d "p-value" with
        | some (JVal.num p) =>
          if p ≤ pvalue then
            match pyInt? site with
            | some k => (memeClassify rest pvalue).map (fun l => k :: l)
            | none =>
              .error ("invalid literal for int with base 10: " ++ site)
          else memeClassify rest pvalue
        | _ => .error "unsupported comparison between non-numeric operands"
      else memeClassify rest pvalue
    | _ => memeClassify rest pvalue

/-- The `if "MLE" in meme_results` guard of `run_meme` (server.py lines
554-555). -/
def memeSiteList (meme_results : JObj) (pvalue : ℚ) :
    Except String (List ℤ) :=
  match jget meme_results "MLE" with
  | some (JVal.obj mle) => memeClassify mle pvalue
  | some _ => .error "object has no attribute items"
  | none => .ok []

/-- Tool `check_datamonkey_api` (server.py lines 332-358).  On failure it
returns `{connected: false, url, error}` — with no `status` field, unlike
every other tool.  The environment oracle is deterministic, so the second
health GET of the success path answers like the first. -/
def check_datamonkey_api (api : Api) : JObj × List Request :=
  match api.health with
  | .err m =>
      ([("connected", JVal.bool false),
        ("url", JVal.str (get_api_url api)),
        ("error", JVal.str (connErrMsg api m))],
       [.healthCheck])
  | .ok health_data =>
      ([("connected", JVal.bool true),
        ("url", JVal.str (get_api_url api)),
        ("status", (jget health_data "status").getD (JVal.str "OK")),
        ("version", (jget health_data "version").getD (JVal.str "Unknown"))],
       [.healthCheck, .healthCheck])

/-- Tool `start_busted_job` (server.py lines 361-437).  Unlike the other
start tools it checks the upload result's `status` field and reads the
correct `file_handle` key, so it can reach the accepted response. -/
def start_busted_job (api : Api) (alignment_file : String)
    (tree_file branches : Option String) : JObj :=
  match api.health with
  | .err m => errObj (connErrMsg api m)
  | .ok _ =>
    let aur := uploadVal api alignment_file
    match jget aur "status" with
    | none => errObj (keyErrorMsg "status")
    | some st =>
      if st.isStr "success" = false then aur
      else
        match jget aur "file_handle" with
        | none => errObj (keyErrorMsg "file_handle")
        | some alignment_handle =>
          let tstep : Except JObj (Option JVal) := match tree_file with
            | some t =>
              let tur := uploadVal api t
              match jget tur "status" with
              | none => .error (errObj (keyErrorMsg "status"))
              | some tst =>
                if tst.isStr "success" = false then .error tur
                else
                  match jget tur "file_handle" with
                  | none => .error (errObj (keyErrorMsg "file_handle"))
                  | some tv => .ok (some tv)
            | none => .ok none
          match tstep with
          | .error r => r
          | .ok th =>
            let p0 : JObj := [("alignment", alignment_handle)]
            let p1 := match th with
              | some tv => if tv.truthy then p0 ++ [("tree", tv)] else p0
              | none => p0
            let p2 := match branches with
              | some b => if b = "" then p1 else p1 ++ [("branches", JVal.str b)]
              | none => p1
            match api.methodStart "busted-start" (JVal.obj p2) with
            | .err m => errObj m
            | .ok job_data =>
              match jget job_data "job_id" with
              | none => errObj (invalidRespMsg job_data)
              | some jid =>
                [("status", JVal.str "accepted"), ("job_id", jid),
                 ("message", JVal.str "BUSTED analysis started on Datamonkey API. Use check_datamonkey_job_status to monitor progress."),
                 ("input", JVal.obj
                   [("file", JVal.str alignment_file),
                    ("tree", optStr tree_file),
                    ("branches", optStr branches)])]

/-- Return value of `run_hyphy_method_async` (server.py lines 207-255):
the ConnectionError of `ensure_datamonkey_api_connection` propagates to
the caller; otherwise the record is inserted (see `newJobRecord`), the
worker of `run_hyphy_method_async_worker` is spawned, and the accepted
response is returned.  The internally generated uuid is a parameter. -/
def run_hyphy_method_async (api : Api) (internal_job_id : String)
    (method : String) : Except String JObj :=
  match api.health with
  | .err m => Except.error (connErrMsg api m)
  | .ok _ =>
      Except.ok
        [("status", JVal.str "accepted"),
         ("job_id", JVal.str internal_job_id),
         ("message", JVal.str ("Datamonkey " ++ method ++
           " analysis started in the background. Use check_job_status to monitor progress."))]

/-- Tool `run_fel` (server.py lines 440-513).  `run_hyphy_method` always
delegates to the asynchronous path (line 329), whose accepted response
takes the first branch; the summary branch below (lines 472-507) mirrors
the source but is unreachable through this call chain.  Every exception,
including the propagated ConnectionError, lands in the except block. -/
def run_fel (api : Api) (internal_job_id : String) (alignment_file : String)
    (tree_file : Option String) (pvalue : ℚ) : JObj :=
  match run_hyphy_method_async api internal_job_id "FEL" with
  | .error e => errObj e
  | .ok job_info =>
    if (match jget job_info "status" with
        | some v => v.isStr "accepted"
        | none => false) = true then
      match jget job_info "job_id" with
      | none => errObj (keyErrorMsg "job_id")
      | some jid =>
        [("status", JVal.str "accepted"), ("job_id", jid),
         ("message", JVal.str "FEL analysis started in the background. Use check_job_status to monitor progress."),
         ("input", JVal.obj
           [("file", JVal.str alignment_file), ("tree", optStr tree_file),
            ("pvalue", JVal.num pvalue)])]
    else
      match jget job_info "results" with
      | none => errObj (keyErrorMsg "results")
      | some fr =>
        match fr with
        | JVal.obj fel_results =>
          match felSummaryResults fel_results pvalue with
          | .error e => errObj e
          | .ok resultsObj =>
            match jget job_info "output_file" with
            | none => errObj (keyErrorMsg "output_file")
            | some ofile =>
              [("status", JVal.str "success"),
               ("summary", JVal.obj
                 [("input", JVal.obj
                    [("file", JVal.str alignment_file),
                     ("tree", optStr tree_file),
                     ("pvalue", JVal.num pvalue)]),
                  ("results", JVal.obj resultsObj),
                  ("output_file", ofile)]),
               ("full_results", fr)]
        | _ => errObj "argument is not iterable"

/-- Tool `run_meme` (server.py lines 516-583), the MEME analogue of
`run_fel` with its episodic-selection summary. -/
def run_meme (api : Api) (internal_job_id : String)
    (alignment_file : String) (tree_file : Option String) (pvalue : ℚ) :
    JObj :=
  match run_hyphy_method_async api internal_job_id "MEME" with
  | .error e => errObj e
  | .ok job_info =>
    if (match jget job_info "status" with
        | some v => v.isStr "accepted"
        | none => false) = true then
      match jget job_info "job_id" with
      | none => errObj (keyErrorMsg "job_id")
      | some jid =>
        [("status", JVal.str "accepted"), ("job_id", jid),
         ("message", JVal.str "MEME analysis started in the background. Use check_job_status to monitor progress."),
         ("input", JVal.obj
           [("file", JVal.str alignment_file), ("tree", optStr tree_file),
            ("pvalue", JVal.num pvalue)])]
    else
      match jget job_info "results" with
      | none => errObj (keyErrorMsg "results")
      | some fr =>
        match fr with
        | JVal.obj meme_results =>
          match memeSiteList meme_results pvalue with
          | .error e => errObj e
          | .ok selected =>
            match jget job_info "output_file" with
            | none => errObj (keyErrorMsg "output_file")
            | some ofile =>
              [("status", JVal.str "success"),
               ("summary", JVal.obj
                 [("input", JVal.obj
                    [("file", JVal.str alignment_file),
                     ("tree", optStr tree_file),
                     ("pvalue", JVal.num pvalue)]),
                  ("results", JVal.obj
                    [("episodic_selection_sites",
                      JVal.arr (selected.map (fun k => JVal.num k))),
                     ("total_sites_under_selection",
                      JVal.num selected.length)]),
                  ("output_file", ofile)]),
               ("full_results", fr)]
        | _ => errObj "argument is not iterable"

/-- Tool `fetch_datamonkey_job_results` (server.py lines 804-852).  The
`output_file` echo is `save_to if save_to else None`, so an empty string
falls back to null; file writes are modelled as succeeding. -/
def fetch_datamonkey_job_results (api : Api) (job_id : String)
    (save_to : Option String) : JObj × List Request :=
  match api.health with
  | .err m => (errObj (connErrMsg api m), [.healthCheck])
  | .ok _ =>
    match api.jobStatus job_id with
    | .err m => (errObj m, [.healthCheck, .getJobStatus job_id])
    | .ok job_status =>
      match jget job_status "status" with
      | none =>
          (errObj (keyErrorMsg "status"),
           [.healthCheck, .getJobStatus job_id])
      | some st =>
        if st.isStr "completed" = false then
          (errObj ("Job " ++ job_id ++ " is not completed. Current status: "
             ++ jvalAsId st),
           [.healthCheck, .getJobStatus job_id])
        else
          match api.jobResults job_id with
          | .err m =>
              (errObj m,
               [.healthCheck, .getJobStatus job_id, .getJobResults job_id])
          | .ok results =>
              ([("status", JVal.str "success"),
                ("job_id", JVal.str job_id),
                ("results", JVal.obj results),
                ("output_file", match save_to with
                  | some s => if s = "" then JVal.null else JVal.str s
                  | none => JVal.null)],
               [.healthCheck, .getJobStatus job_id, .getJobResults job_id])

/-- A poll response that is neither completed nor an error, seen through
the comparisons of server.py lines 170 and 190. -/
def nonTerminalPoll (h : HttpResult) : Prop :=
  ∃ body, h = HttpResult.ok body ∧ statusIs body "completed" = false ∧
    statusIs body "error" = false

/-- An upload of this file against this environment yields the success
dictionary (its `status` field is "success"). -/
def uploadSucceeds (api : Api) (p : String) : Prop :=
  jget (uploadVal api p) "status" = some (JVal.str "success")

/-- A job-record write that puts the status field into a terminal state. -/
def isTerminalStatusWrite (w : RegWrite) : Bool :=
  match w.field, w.val with
  | JobField.status, JVal.str s =>
      s = "completed" || s = "error" || s = "failed"
  | _, _ => false

/-- Every terminal status write is the last mutation of the record. -/
def terminalWriteIsLast (ws : List RegWrite) : Prop :=
  ∀ i, (h : i < ws.length) →
    isTerminalStatusWrite (ws.get ⟨i, h⟩) = true → i = ws.length - 1

/-- Environment in which everything succeeds: files exist, uploads are
acknowledged with handle h1, jobs start as rjob1, status queries report
completion, and polls report a still-running job. -/
def apiHappy : Api :=
  { apiUrl := "http://localhost"
    apiPort := 9300
    health := .ok [("status", JVal.str "healthy")]
    fileExists := fun _ => true
    fileSize := fun _ => 5
    datasets := fun _ => .ok [("id", JVal.str "h1")]
    methodStart := fun _ _ => .ok [("job_id", JVal.str "rjob1")]
    jobStatus := fun _ => .ok [("status", JVal.str "completed")]
    jobResults := fun _ => .ok [("result", JVal.num 1)]
    pollResult := fun _ _ => .ok [("status", JVal.str "running")] }

/-- Environment whose remote service is unreachable. -/
def apiDown : Api :=
  { apiUrl := "http://localhost"
    apiPort := 9300
    health := .err "connection refused"
    fileExists := fun _ => false
    fileSize := fun _ => 0
    datasets := fun _ => .err "connection refused"
    methodStart := fun _ _ => .err "connection refused"
    jobStatus := fun _ => .err "connection refused"
    jobResults := fun _ => .err "connection refused"
    pollResult := fun _ _ => .err "connection refused" }

/-- Healthy environment in which the requested local file does not exist. -/
def apiNoFile : Api :=
  { apiHappy with fileExists := fun _ => false }

/-- Healthy environment in which starting a job fails with an HTTP error. -/
def apiStartFails : Api :=
  { apiHappy with methodStart := fun _ _ => .err "500 Server Error" }

/-- Healthy environment whose dataset and job-status endpoints fail with
an HTTP error. -/
def apiEndpointsFail : Api :=
  { apiHappy with
      datasets := fun _ => HttpResult.err "502 Bad Gateway"
      jobStatus := fun _ => HttpResult.err "502 Bad Gateway" }

/-- Remote body reporting a failed job. -/
def failedJobBody : JObj :=
  [("status", JVal.str "error"),
   ("error_message", JVal.str "alignment rejected")]

/-- Healthy environment whose remote job status endpoint reports a failed
job with an error message. -/
def apiRemoteJobFailed : Api :=
  { apiHappy with jobStatus := fun _ => HttpResult.ok failedJobBody }

/-- A job record whose worker recorded a failure, as the except block of
`run_hyphy_method_async_worker` leaves it (server.py lines 308-311). -/
def recFailed : JobRecord :=
  { newJobRecord "FEL" "a" none [] 0 with
      status := "error", error := some "boom" }

/-- Claim C1 as stated: whenever the local registry holds a record whose
worker recorded a failure, `check_datamonkey_job_status` on that internal
id reports the failed status with the recorded message and no results. -/
def c1Statement : Prop :=
  ∀ (jobs : List (String × JobRecord)) (api : Api) (id : String)
    (rec : JobRecord) (msg : String),
    lookupJob jobs id = some rec →
    rec.status = "error" →
    rec.error = some msg →
    jget (check_datamonkey_job_status api id).1 "status" =
      some (JVal.str "error") ∧
    jget (check_datamonkey_job_status api id).1 "error" =
      some (JVal.str msg) ∧
    hasKey (check_datamonkey_job_status api id).1 "results" = false

/-- Claim C3 as stated: an upload of a nonexistent path returns the
file-not-found error and issues no network request at all. -/
def c3Statement : Prop :=
  ∀ (api : Api) (p : String), api.fileExists p = false →
    (upload_file_to_datamonkey api p).1 =
      errObj ("File not found: " ++ p) ∧
    (upload_file_to_datamonkey api p).2 = []

/-- Claim C4 as stated, reduced to its one falsifiable part: every
tool-level operation converts failures into a structured response instead
of raising.  All embedded tools except `get_available_methods` are total
functions into response dictionaries, so the claim is equivalent to
`get_available_methods` never propagating an exception. -/
def c4Statement : Prop :=
  ∀ api : Api, ∃ r, (get_available_methods api).1 = Except.ok r

/-- Claim C6 as stated, specialized to the FEL `pvalue` parameter: the
launch payload contains `pvalue` only when the caller explicitly supplied
it to `run_fel`. -/
def c6Statement : Prop :=
  ∀ (ah : JObj) (th : Option JObj) (pv : Option ℚ),
    hasKey (startPayload ah th "FEL" (runFelKwargsOfCall pv)) "pvalue" =
      true →
    pv.isSome = true

/-- Claim C7 as stated: in every worker run, once the record reaches a
terminal status no further field mutation occurs, so a terminal status
write can only be the last write. -/
def c7Statement : Prop :=
  ∀ (api : Api) (tempDir method alignment_file : String)
    (tree_file : Option String) (kwargs : JObj),
    terminalWriteIsLast
      (run_hyphy_method_async_worker api tempDir method alignment_file
        tree_file kwargs).writes

theorem upload_shape (api : Api) (p : String) :
    (∃ m, upload_file_to_datamonkey api p = (errObj m, [Request.healthCheck])) ∨
    (∃ m, upload_file_to_datamonkey api p =
      (errObj m, [Request.healthCheck, Request.postDatasets p])) ∨
    (∃ h, upload_file_to_datamonkey api p =
      ([("status", JVal.str "success"), ("file_handle", h),
        ("file_name", JVal.str (pyBasename p)),
        ("file_size", JVal.num (api.fileSize p))],
       [Request.healthCheck, Request.postDatasets p])) := by
  unfold upload_file_to_datamonkey
  cases api.health with
  | err m => exact Or.inl ⟨_, rfl⟩
  | ok b =>
    by_cases hf : api.fileExists p
    · simp only [hf, if_true]
      cases api.datasets p with
      | err m => exact Or.inr (Or.inl ⟨_, rfl⟩)
      | ok body =>
        cases hid : jget body "id" with
        | none =>
          simp only [hid]
          exact Or.inr (Or.inl ⟨_, rfl⟩)
        | some h =>
          simp only [hid]
          exact Or.inr (Or.inr ⟨_, rfl⟩)
    · simp only [hf, if_false]
      exact Or.inl ⟨_, rfl⟩

theorem uploadVal_shape (api : Api) (p : String) :
    (∃ m, uploadVal api p = errObj m) ∨
    (∃ h, uploadVal api p =
      [("status", JVal.str "success"), ("file_handle", h),
       ("file_name", JVal.str (pyBasename p)),
       ("file_size", JVal.num (api.fileSize p))]) := by
  rcases upload_shape api p with ⟨m, hm⟩ | ⟨m, hm⟩ | ⟨h, hh⟩
  · exact Or.inl ⟨m, congrArg Prod.fst hm⟩
  · exact Or.inl ⟨m, congrArg Prod.fst hm⟩
  · exact Or.inr ⟨h, congrArg Prod.fst hh⟩

theorem uploadSucceeds_keys (api : Api) (p : String)
    (h : uploadSucceeds api p) :
    hasKey (uploadVal api p) "error" = false ∧
    jget (uploadVal api p) "handle" = none := by
  rcases uploadVal_shape api p with ⟨m, hm⟩ | ⟨hv, hh⟩
  · rw [uploadSucceeds, hm] at h
    simp [errObj, jget] at h
  · rw [hh]
    constructor <;> rfl

theorem upload_error_status (api : Api) (p : String)
    (h : hasKey (uploadVal api p) "error" = true) :
    jget (uploadVal api p) "status" = some (JVal.str "error") := by
  rcases uploadVal_shape api p with ⟨m, hm⟩ | ⟨hv, hh⟩
  · rw [hm]; rfl
  · rw [hh] at h
    simp [hasKey, jget] at h

theorem uploadVal_truthy (api : Api) (p : String) :
    (JVal.obj (uploadVal api p)).truthy = true := by
  rcases uploadVal_shape api p with ⟨m, hm⟩ | ⟨hv, hh⟩
  · rw [hm]; rfl
  · rw [hh]; rfl

/-- Claim C3 fails on the code: `upload_file_to_datamonkey` runs
`ensure_datamonkey_api_connection` before it tests the path (server.py
lines 60-62), so an upload of a nonexistent path still issues the health
check request.  Witnessed by the concrete environment `apiNoFile`. -/
theorem c3_counterexample : ¬ c3Statement := by
  intro h
  have := (h apiNoFile "missing.fasta" rfl).2
  simp [upload_file_to_datamonkey, apiNoFile, apiHappy] at this

/-- Claim C3 amended: when the path does not exist, the upload performs
exactly the health check — no dataset transfer — and, provided that health
check succeeds, returns the FileNotFound-kind error dictionary; when the
health check itself fails, the connection error is reported instead. -/
theorem c3_upload_missing_file (api : Api) (p : String) (b : JObj)
    (hh : api.health = HttpResult.ok b)
    (hf : api.fileExists p = false) :
    upload_file_to_datamonkey api p =
      (errObj ("File not found: " ++ p), [Request.healthCheck]) := by
  unfold upload_file_to_datamonkey
  rw [hh]
  simp [hf]

theorem c3_witness :
    apiNoFile.health = HttpResult.ok [("status", JVal.str "healthy")] ∧
    apiNoFile.fileExists "missing.fasta" = false ∧
    upload_file_to_datamonkey apiNoFile "missing.fasta" =
      (errObj "File not found: missing.fasta", [Request.healthCheck]) :=
  ⟨rfl, rfl, c3_upload_missing_file apiNoFile "missing.fasta" _ rfl rfl⟩

/-- Claim C4 fails on the code: `get_available_methods` has no try/except
(server.py lines 1774-1782, likewise lines 855-863 of the hyphy-mcp
variant), so the ConnectionError raised by its health check propagates to
the caller instead of being converted to an error response.  Witnessed by
the unreachable environment `apiDown`. -/
theorem c4_counterexample : ¬ c4Statement := by
  intro h
  obtain ⟨r, hr⟩ := h apiDown
  simp [get_available_methods, apiDown] at hr

/-- Claim C4 amended: `get_available_methods` alone propagates exceptions
— the ConnectionError of its health check reaches the caller — while every
other tool-level operation catches failures at its boundary and returns a
dictionary: a `{status: "error", error: <message>}` response for all of
them except `check_datamonkey_api`, which reports failures as
`{connected: false, url, error}` with no status field.  The conversion is
proved for a connection failure in every one of the twenty other tools,
and for remote HTTP failures of the upload, status-check and
fetch-results tools; each of these embeddings is a total function into a
response dictionary, so no exception can escape them. -/
theorem c4_boundary_policy :
    (∀ (api : Api) (m : String), api.health = HttpResult.err m →
      (get_available_methods api).1 = Except.error (connErrMsg api m)) ∧
    (∀ (api : Api) (b : JObj), api.health = HttpResult.ok b →
      (get_available_methods api).1 =
        Except.ok [("methods", JVal.arr availableMethodsList)]) ∧
    (∀ (api : Api) (m : String), api.health = HttpResult.err m →
      (∀ p, (upload_file_to_datamonkey api p).1 =
        errObj (connErrMsg api m)) ∧
      (check_datamonkey_api api).1 =
        [("connected", JVal.bool false),
         ("url", JVal.str (get_api_url api)),
         ("error", JVal.str (connErrMsg api m))] ∧
      (∀ (af : String) (tf br : Option String),
        start_busted_job api af tf br = errObj (connErrMsg api m)) ∧
      (∀ (jid af : String) (tf : Option String) (pv : ℚ),
        run_fel api jid af tf pv = errObj (connErrMsg api m)) ∧
      (∀ (jid af : String) (tf : Option String) (pv : ℚ),
        run_meme api jid af tf pv = errObj (connErrMsg api m)) ∧
      (∀ id, (check_datamonkey_job_status api id).1 =
        errObj (connErrMsg api m)) ∧
      (∀ (id : String) (sv : Option String),
        (fetch_datamonkey_job_results api id sv).1 =
          errObj (connErrMsg api m)) ∧
      (∀ (af : String) (tf br : Option String) (pv : ℚ),
        start_fel_job api af tf br pv = errObj (connErrMsg api m)) ∧
      (∀ (af : String) (tf br : Option String) (pv : ℚ),
        start_meme_job api af tf br pv = errObj (connErrMsg api m)) ∧
      (∀ (af tf : String) (br : Option String) (srv mh gc : String),
        start_absrel_job api af tf br srv mh gc =
          errObj (connErrMsg api m)) ∧
      (∀ (af tf dt gc : String) (st bi sa mp ms : ℤ),
        start_bgm_job api af tf dt gc st bi sa mp ms =
          errObj (connErrMsg api m)) ∧
      (∀ (af tf bs gc srv pm : String) (pq qv : ℚ),
        start_contrast_fel_job api af tf bs gc srv pm pq qv =
          errObj (connErrMsg api m)) ∧
      (∀ (af tf : String) (bft : ℤ),
        start_fade_job api af tf bft = errObj (connErrMsg api m)) ∧
      (∀ (af tf gc : String) (gp : ℤ) (cp : ℚ),
        start_fubar_job api af tf gc gp cp = errObj (connErrMsg api m)) ∧
      (∀ (af gc dt rm sv : String) (rc : ℤ) (mo : String),
        start_gard_job api af gc dt rm sv rc mo =
          errObj (connErrMsg api m)) ∧
      (∀ (af gc ti : String) (rc : ℤ),
        start_multihit_job api af gc ti rc = errObj (connErrMsg api m)) ∧
      (∀ (af tf gc : String) (sf : Bool),
        start_nrm_job api af tf gc sf = errObj (connErrMsg api m)) ∧
      (∀ (af tf gc : String) (tb rb : Option (List String)) (mo : String)
         (ra : ℤ) (kz : String),
        start_relax_job api af tf gc tb rb mo ra kz =
          errObj (connErrMsg api m)) ∧
      (∀ (af tf gc br : String) (sa : ℤ) (pv : ℚ),
        start_slac_job api af tf gc br sa pv =
          errObj (connErrMsg api m)) ∧
      (∀ (tf : String) (gr : ℤ) (cd : Option (List JObj)) (re : ℤ)
         (we : ℚ) (ub : Bool),
        start_slatkin_job api tf gr cd re we ub =
          errObj (connErrMsg api m))) ∧
    (∀ (api : Api) (id m : String) (b : JObj),
      api.health = HttpResult.ok b →
      api.jobStatus id = HttpResult.err m →
      (check_datamonkey_job_status api id).1 = errObj m ∧
      (∀ sv, (fetch_datamonkey_job_results api id sv).1 = errObj m)) ∧
    (∀ (api : Api) (p m : String) (b : JObj),
      api.health = HttpResult.ok b →
      api.fileExists p = true →
      api.datasets p = HttpResult.err m →
      (upload_file_to_datamonkey api p).1 = errObj m) := by
  refine ⟨?_, ?_, ?_, ?_, ?_⟩
  · intro api m hm
    unfold get_available_methods
    rw [hm]
  · intro api b hb
    unfold get_available_methods
    rw [hb]
  · intro api m hm
    refine ⟨?_, ?_, ?_, ?_, ?_, ?_, ?_, ?_, ?_, ?_, ?_, ?_, ?_, ?_, ?_,
      ?_, ?_, ?_, ?_, ?_⟩
    · intro p
      unfold upload_file_to_datamonkey
      rw [hm]
    · unfold check_datamonkey_api
      rw [hm]
    · intro af tf br
      unfold start_busted_job
      rw [hm]
    · intro jid af tf pv
      unfold run_fel run_hyphy_method_async
      rw [hm]
    · intro jid af tf pv
      unfold run_meme run_hyphy_method_async
      rw [hm]
    · intro id
      unfold check_datamonkey_job_status
      rw [hm]
    · intro id sv
      unfold fetch_datamonkey_job_results
      rw [hm]
    · intro af tf br pv
      unfold start_fel_job
      rw [hm]
    · intro af tf br pv
      unfold start_meme_job
      rw [hm]
    · intro af tf br srv mh gc
      unfold start_absrel_job
      rw [hm]
    · intro af tf dt gc st bi sa mp ms
      unfold start_bgm_job
      rw [hm]
    · intro af tf bs gc srv pm pq qv
      unfold start_contrast_fel_job
      rw [hm]
    · intro af tf bft
      unfold start_fade_job
      rw [hm]
    · intro af tf gc gp cp
      unfold start_fubar_job
      rw [hm]
    · intro af gc dt rm sv rc mo
      unfold start_gard_job
      rw [hm]
    · intro af gc ti rc
      unfold start_multihit_job
      rw [hm]
    · intro af tf gc sf
      unfold start_nrm_job
      rw [hm]
    · intro af tf gc tb rb mo ra kz
      unfold start_relax_job
      rw [hm]
    · intro af tf gc br sa pv
      unfold start_slac_job
      rw [hm]
    · intro tf gr cd re we ub
      unfold start_slatkin_job
      rw [hm]
  · intro api id m b hb hj
    unfold check_datamonkey_job_status fetch_datamonkey_job_results
    rw [hb, hj]
    exact ⟨rfl, fun sv => rfl⟩
  · intro api p m b hb hf hd
    unfold upload_file_to_datamonkey
    rw [hb, hd]
    simp [hf]

/-- Claim C1 fails on the code: `check_datamonkey_job_status` never reads
the local `datamonkey_state["jobs"]` registry (server.py lines 587-649
mention only the remote API).  Concretely, with the registry holding a
record whose worker recorded status "error" and message "boom" under id
"j1", but a remote service (`apiHappy`) that reports job "j1" completed,
the status check returns status "completed" rather than the recorded
failure. -/
theorem c1_counterexample : ¬ c1Statement := by
  intro h
  have hc := (h [("j1", recFailed)] apiHappy "j1" recFailed "boom" rfl rfl rfl).1
  have hc2 : (some (JVal.str "completed") : Option JVal) =
      some (JVal.str "error") := hc
  injection hc2 with h2
  injection h2 with h3
  exact absurd h3 (by decide)

/-- Claim C1 amended: the status check consults only the remote API, so
the failure it reports is the remote one, not the locally recorded one:
whenever `GET /jobs/{id}` answers with status "error", the response is
exactly `{status: "error", job_id: id, error: <remote error_message,
defaulting to "Unknown error">}` and omits `results`.  A failure recorded
by the worker in the local registry is reflected only if the remote API
reports it too. -/
theorem c1_check_status_reports_remote_error (api : Api) (id : String)
    (b body : JObj)
    (hh : api.health = HttpResult.ok b)
    (hj : api.jobStatus id = HttpResult.ok body)
    (hst : jget body "status" = some (JVal.str "error")) :
    (check_datamonkey_job_status api id).1 =
      [("status", JVal.str "error"), ("job_id", JVal.str id),
       ("error",
        (jget body "error_message").getD (JVal.str "Unknown error"))] ∧
    hasKey (check_datamonkey_job_status api id).1 "results" = false := by
  unfold check_datamonkey_job_status
  rw [hh, hj]
  simp only [hst]
  exact ⟨rfl, rfl⟩

theorem c1_witness :
    apiRemoteJobFailed.jobStatus "j1" = HttpResult.ok failedJobBody ∧
    jget failedJobBody "status" = some (JVal.str "error") ∧
    (check_datamonkey_job_status apiRemoteJobFailed "j1").1 =
      [("status", JVal.str "error"), ("job_id", JVal.str "j1"),
       ("error",
        (jget failedJobBody "error_message").getD
          (JVal.str "Unknown error"))] ∧
    hasKey (check_datamonkey_job_status apiRemoteJobFailed "j1").1
      "results" = false := by
  refine ⟨rfl, rfl, ?_⟩
  exact c1_check_status_reports_remote_error apiRemoteJobFailed "j1" _
    failedJobBody rfl rfl rfl

/-- Claim C7 fails on the code: after the except block sets the status
field to the terminal value "error", it performs one more mutation — it
writes the error message (server.py lines 310-311).  In the concrete run
below the terminal status write is at index 1 of a three-write trace, so
it is not the last mutation. -/
theorem c7_counterexample : ¬ c7Statement := by
  intro h
  have hw := h apiStartFails "/tmp" "FEL" "a" none []
  have hws : (run_hyphy_method_async_worker apiStartFails "/tmp" "FEL" "a"
      none []).writes =
      [⟨JobField.status, JVal.str "running"⟩,
       ⟨JobField.status, JVal.str "error"⟩,
       ⟨JobField.error, JVal.str "500 Server Error"⟩] := rfl
  rw [terminalWriteIsLast, hws] at hw
  have h12 := hw 1 (by decide) rfl
  exact absurd h12 (by decide)

/-- Claim C7 amended: the worker drives the record forward as
queued → running → (error | still running): every run writes exactly
either running followed by the terminal pair (status "error", then the
error message as part of the same failure handling, after which nothing
further is written), or running followed by the remote job id and the
output file path while the status stays "running".  No status value is
ever written twice and no write follows the error-message write. -/
theorem c7_worker_write_shape (api : Api)
    (tempDir method alignment_file : String) (tree_file : Option String)
    (kwargs : JObj) :
    (∃ m, (run_hyphy_method_async_worker api tempDir method alignment_file
        tree_file kwargs).writes =
      [⟨JobField.status, JVal.str "running"⟩,
       ⟨JobField.status, JVal.str "error"⟩,
       ⟨JobField.error, JVal.str m⟩]) ∨
    (∃ jid, (run_hyphy_method_async_worker api tempDir method alignment_file
        tree_file kwargs).writes =
      [⟨JobField.status, JVal.str "running"⟩,
       ⟨JobField.datamonkeyJobId, jid⟩,
       ⟨JobField.outputFile, JVal.str
         (tempDir ++ "/" ++ method ++ "_" ++ jvalAsId jid ++ ".json")⟩]) := by
  unfold run_hyphy_method_async_worker
  dsimp only
  cases hms : api.methodStart (method.toLower ++ "-start")
      (JVal.obj (startPayload (upload_file_to_datamonkey api alignment_file).1
        ((tree_file.map (upload_file_to_datamonkey api)).map (fun x => x.1))
        method kwargs)) with
  | err m => exact Or.inl ⟨m, rfl⟩
  | ok body =>
    cases hjid : jget body "job_id" with
    | none =>
      simp only [hjid]
      exact Or.inl ⟨_, rfl⟩
    | some jid =>
      simp only [hjid]
      exact Or.inr ⟨jid, rfl⟩

theorem uploadSucceeds_health (api : Api) (p : String)
    (h : uploadSucceeds api p) : ∃ b, api.health = HttpResult.ok b := by
  cases hh : api.health with
  | ok b => exact ⟨b, rfl⟩
  | err m =>
    rw [uploadSucceeds, uploadVal, upload_file_to_datamonkey, hh] at h
    have h2 : (some (JVal.str "error") : Option JVal) =
        some (JVal.str "success") := h
    injection h2 with h3
    injection h3 with h4
    exact absurd h4 (by decide)

theorem uploadCheckStep_ok (api : Api) (p : String)
    (h : hasKey (uploadVal api p) "error" = false) :
    uploadCheckStep api p = Except.ok (uploadVal api p) := by
  unfold uploadCheckStep
  dsimp only
  rw [h]
  rfl

theorem uploadCheckStep_error (api : Api) (p : String)
    (h : hasKey (uploadVal api p) "error" = true) :
    uploadCheckStep api p = Except.error (uploadVal api p) := by
  unfold uploadCheckStep
  dsimp only
  rw [h]
  rfl

theorem start_fel_job_error (api : Api) (alignment_file : String)
    (tree_file branches : Option String) (pvalue : ℚ)
    (hA : uploadSucceeds api alignment_file) :
    jget (start_fel_job api alignment_file tree_file branches pvalue)
      "status" = some (JVal.str "error") := by
  obtain ⟨b, hb⟩ := uploadSucceeds_health api alignment_file hA
  obtain ⟨hE, hH⟩ := uploadSucceeds_keys api alignment_file hA
  unfold start_fel_job
  rw [hb, uploadCheckStep_ok api alignment_file hE]
  dsimp only
  cases tree_file with
  | none =>
    dsimp only
    rw [hH]
    rfl
  | some t =>
    dsimp only
    cases hte : hasKey (uploadVal api t) "error" with
    | true =>
      rw [uploadCheckStep_error api t hte]
      dsimp only
      exact upload_error_status api t hte
    | false =>
      rw [uploadCheckStep_ok api t hte]
      dsimp only
      rw [hH]
      rfl

theorem start_meme_job_error (api : Api) (alignment_file : String)
    (tree_file branches : Option String) (pvalue : ℚ)
    (hA : uploadSucceeds api alignment_file) :
    jget (start_meme_job api alignment_file tree_file branches pvalue)
      "status" = some (JVal.str "error") := by
  obtain ⟨b, hb⟩ := uploadSucceeds_health api alignment_file hA
  obtain ⟨hE, hH⟩ := uploadSucceeds_keys api alignment_file hA
  unfold start_meme_job
  rw [hb, uploadCheckStep_ok api alignment_file hE]
  dsimp only
  cases tree_file with
  | none =>
    dsimp only
    rw [hH]
    rfl
  | some t =>
    dsimp only
    cases hte : hasKey (uploadVal api t) "error" with
    | true =>
      rw [uploadCheckStep_error api t hte]
      dsimp only
      exact upload_error_status api t hte
    | false =>
      rw [uploadCheckStep_ok api t hte]
      dsimp only
      rw [hH]
      rfl

theorem start_absrel_job_error (api : Api)
    (alignment_file tree_file : String) (branches : Option String)
    (srv multiple_hits genetic_code : String)
    (hA : uploadSucceeds api alignment_file) :
    jget (start_absrel_job api alignment_file tree_file branches srv
      multiple_hits genetic_code) "status" = some (JVal.str "error") := by
  obtain ⟨b, hb⟩ := uploadSucceeds_health api alignment_file hA
  obtain ⟨hE, hH⟩ := uploadSucceeds_keys api alignment_file hA
  unfold start_absrel_job
  rw [hb, uploadCheckStep_ok api alignment_file hE]
  dsimp only
  cases hte : hasKey (uploadVal api tree_file) "error" with
  | true =>
    rw [uploadCheckStep_error api tree_file hte]
    dsimp only
    exact upload_error_status api tree_file hte
  | false =>
    rw [uploadCheckStep_ok api tree_file hte]
    dsimp only
    rw [hH]
    rfl

theorem start_bgm_job_error (api : Api) (alignment_file tree_file : String)
    (data_type genetic_code : String)
    (steps burn_in samples max_parents min_subs : ℤ)
    (hA : uploadSucceeds api alignment_file) :
    jget (start_bgm_job api alignment_file tree_file data_type genetic_code
      steps burn_in samples max_parents min_subs) "status" =
      some (JVal.str "error") := by
  obtain ⟨b, hb⟩ := uploadSucceeds_health api alignment_file hA
  obtain ⟨hE, hH⟩ := uploadSucceeds_keys api alignment_file hA
  unfold start_bgm_job
  rw [hb, uploadCheckStep_ok api alignment_file hE]
  dsimp only
  cases hte : hasKey (uploadVal api tree_file) "error" with
  | true =>
    rw [uploadCheckStep_error api tree_file hte]
    dsimp only
    exact upload_error_status api tree_file hte
  | false =>
    rw [uploadCheckStep_ok api tree_file hte]
    dsimp only
    rw [hH]
    rfl

theorem start_contrast_fel_job_error (api : Api)
    (alignment_file tree_file : String)
    (branch_sets genetic_code srv permutations : String)
    (p_value q_value : ℚ)
    (hA : uploadSucceeds api alignment_file) :
    jget (start_contrast_fel_job api alignment_file tree_file branch_sets
      genetic_code srv permutations p_value q_value) "status" =
      some (JVal.str "error") := by
  obtain ⟨b, hb⟩ := uploadSucceeds_health api alignment_file hA
  obtain ⟨hE, hH⟩ := uploadSucceeds_keys api alignment_file hA
  unfold start_contrast_fel_job
  rw [hb, uploadCheckStep_ok api alignment_file hE]
  dsimp only
  cases hte : hasKey (uploadVal api tree_file) "error" with
  | true =>
    rw [uploadCheckStep_error api tree_file hte]
    dsimp only
    exact upload_error_status api tree_file hte
  | false =>
    rw [uploadCheckStep_ok api tree_file hte]
    dsimp only
    rw [hH]
    rfl

theorem start_fade_job_error (api : Api) (alignment_file tree_file : String)
    (bayes_factor_threshold : ℤ)
    (hA : uploadSucceeds api alignment_file) :
    jget (start_fade_job api alignment_file tree_file
      bayes_factor_threshold) "status" = some (JVal.str "error") := by
  obtain ⟨b, hb⟩ := uploadSucceeds_health api alignment_file hA
  obtain ⟨hE, hH⟩ := uploadSucceeds_keys api alignment_file hA
  unfold start_fade_job
  rw [hb, uploadCheckStep_ok api alignment_file hE]
  dsimp only
  cases hte : hasKey (uploadVal api tree_file) "error" with
  | true =>
    rw [uploadCheckStep_error api tree_file hte]
    dsimp only
    exact upload_error_status api tree_file hte
  | false =>
    rw [uploadCheckStep_ok api tree_file hte]
    dsimp only
    rw [hH]
    rfl

theorem start_fubar_job_error (api : Api) (alignment_file tree_file : String)
    (genetic_code : String) (grid_points : ℤ)
    (concentration_parameter : ℚ)
    (hA : uploadSucceeds api alignment_file) :
    jget (start_fubar_job api alignment_file tree_file genetic_code
      grid_points concentration_parameter) "status" =
      some (JVal.str "error") := by
  obtain ⟨b, hb⟩ := uploadSucceeds_health api alignment_file hA
  obtain ⟨hE, hH⟩ := uploadSucceeds_keys api alignment_file hA
  unfold start_fubar_job
  rw [hb]
  dsimp only
  by_cases h1 : (grid_points < 5 ∨ grid_points > 50)
  · rw [if_pos h1]
    rfl
  · rw [if_neg h1]
    by_cases h2 : (concentration_parameter < 1 / 1000 ∨
        concentration_parameter > 1)
    · rw [if_pos h2]
      rfl
    · rw [if_neg h2]
      rw [uploadCheckStep_ok api alignment_file hE]
      dsimp only
      cases hte : hasKey (uploadVal api tree_file) "error" with
      | true =>
        rw [uploadCheckStep_error api tree_file hte]
        dsimp only
        exact upload_error_status api tree_file hte
      | false =>
        rw [uploadCheckStep_ok api tree_file hte]
        dsimp only
        rw [hH]
        rfl

theorem start_gard_job_error (api : Api) (alignment_file : String)
    (genetic_code data_type run_mode site_to_site_variation : String)
    (rate_classes : ℤ) (model : String)
    (hA : uploadSucceeds api alignment_file) :
    jget (start_gard_job api alignment_file genetic_code data_type run_mode
      site_to_site_variation rate_classes model) "status" =
      some (JVal.str "error") := by
  obtain ⟨b, hb⟩ := uploadSucceeds_health api alignment_file hA
  obtain ⟨hE, hH⟩ := uploadSucceeds_keys api alignment_file hA
  unfold start_gard_job
  rw [hb, uploadCheckStep_ok api alignment_file hE]
  dsimp only
  rw [hH]
  rfl

theorem start_multihit_job_error (api : Api) (alignment_file : String)
    (genetic_code triple_islands : String) (rate_classes : ℤ)
    (hA : uploadSucceeds api alignment_file) :
    jget (start_multihit_job api alignment_file genetic_code triple_islands
      rate_classes) "status" = some (JVal.str "error") := by
  obtain ⟨b, hb⟩ := uploadSucceeds_health api alignment_file hA
  obtain ⟨hE, hH⟩ := uploadSucceeds_keys api alignment_file hA
  unfold start_multihit_job
  rw [hb]
  dsimp only
  by_cases h1 : (rate_classes < 1 ∨ rate_classes > 10)
  · rw [if_pos h1]
    rfl
  · rw [if_neg h1]
    rw [uploadCheckStep_ok api alignment_file hE]
    dsimp only
    rw [hH]
    rfl

theorem start_nrm_job_error (api : Api) (alignment_file tree_file : String)
    (genetic_code : String) (save_fit : Bool)
    (hA : uploadSucceeds api alignment_file) :
    jget (start_nrm_job api alignment_file tree_file genetic_code save_fit)
      "status" = some (JVal.str "error") := by
  obtain ⟨b, hb⟩ := uploadSucceeds_health api alignment_file hA
  obtain ⟨hE, hH⟩ := uploadSucceeds_keys api alignment_file hA
  unfold start_nrm_job
  rw [hb, uploadCheckStep_ok api alignment_file hE]
  dsimp only
  cases hte : hasKey (uploadVal api tree_file) "error" with
  | true =>
    rw [uploadCheckStep_error api tree_file hte]
    dsimp only
    exact upload_error_status api tree_file hte
  | false =>
    rw [uploadCheckStep_ok api tree_file hte]
    dsimp only
    rw [hH]
    rfl

theorem start_relax_job_error (api : Api) (alignment_file tree_file : String)
    (genetic_code : String)
    (test_branches reference_branches : Option (List String))
    (models : String) (rates : ℤ) (kill_zero_lengths : String)
    (hA : uploadSucceeds api alignment_file) :
    jget (start_relax_job api alignment_file tree_file genetic_code
      test_branches reference_branches models rates kill_zero_lengths)
      "status" = some (JVal.str "error") := by
  obtain ⟨b, hb⟩ := uploadSucceeds_health api alignment_file hA
  obtain ⟨hE, hH⟩ := uploadSucceeds_keys api alignment_file hA
  unfold start_relax_job
  rw [hb, uploadCheckStep_ok api alignment_file hE]
  dsimp only
  cases hte : hasKey (uploadVal api tree_file) "error" with
  | true =>
    rw [uploadCheckStep_error api tree_file hte]
    dsimp only
    exact upload_error_status api tree_file hte
  | false =>
    rw [uploadCheckStep_ok api tree_file hte]
    dsimp only
    rw [hH]
    rfl

theorem start_slac_job_error (api : Api) (alignment_file tree_file : String)
    (genetic_code branches : String) (samples : ℤ) (pvalue : ℚ)
    (hA : uploadSucceeds api alignment_file) :
    jget (start_slac_job api alignment_file tree_file genetic_code branches
      samples pvalue) "status" = some (JVal.str "error") := by
  obtain ⟨b, hb⟩ := uploadSucceeds_health api alignment_file hA
  obtain ⟨hE, hH⟩ := uploadSucceeds_keys api alignment_file hA
  unfold start_slac_job
  rw [hb]
  dsimp only
  by_cases h1 : samples < 1
  · rw [if_pos h1]
    rfl
  · rw [if_neg h1]
    by_cases h2 : (pvalue < 0 ∨ pvalue > 1)
    · rw [if_pos h2]
      rfl
    · rw [if_neg h2]
      rw [uploadCheckStep_ok api alignment_file hE]
      dsimp only
      cases hte : hasKey (uploadVal api tree_file) "error" with
      | true =>
        rw [uploadCheckStep_error api tree_file hte]
        dsimp only
        exact upload_error_status api tree_file hte
      | false =>
        rw [uploadCheckStep_ok api tree_file hte]
        dsimp only
        rw [hH]
        rfl

theorem start_slatkin_job_error (api : Api) (tree_file : String)
    (groups : ℤ) (compartment_definitions : Option (List JObj))
    (replicates : ℤ) (weight : ℚ) (use_bootstrap : Bool)
    (hT : uploadSucceeds api tree_file) :
    jget (start_slatkin_job api tree_file groups compartment_definitions
      replicates weight use_bootstrap) "status" =
      some (JVal.str "error") := by
  obtain ⟨b, hb⟩ := uploadSucceeds_health api tree_file hT
  obtain ⟨hE, hH⟩ := uploadSucceeds_keys api tree_file hT
  unfold start_slatkin_job
  rw [hb]
  dsimp only
  by_cases h1 : (groups < 2 ∨ groups > 100)
  · rw [if_pos h1]
    rfl
  · rw [if_neg h1]
    by_cases h2 : (replicates < 1 ∨ replicates > 1000000)
    · rw [if_pos h2]
      rfl
    · rw [if_neg h2]
      by_cases h3 : (weight < 0 ∨ weight > 1)
      · rw [if_pos h3]
        rfl
      · rw [if_neg h3]
        by_cases h4 : ((compartment_definitions.getD []).all
            (fun c => hasKey c "description" && hasKey c "regexp")) = true
        · rw [if_pos h4]
          rw [uploadCheckStep_ok api tree_file hE]
          dsimp only
          rw [hH]
          rfl
        · rw [if_neg h4]
          rfl

/-- Claim C2: for every one of the thirteen start tools, whenever every
required file upload succeeds the tool returns a response whose status is
"error" (and therefore never one with status "accepted"): the payload
construction indexes the upload result with the key "handle", which a
successful upload result (keys status, file_handle, file_name, file_size)
does not contain, so the KeyError is converted into the error response. -/
theorem c2_start_jobs_error :
    (∀ (api : Api) (af : String) (tf br : Option String) (pv : ℚ),
      uploadSucceeds api af →
      jget (start_fel_job api af tf br pv) "status" =
        some (JVal.str "error")) ∧
    (∀ (api : Api) (af : String) (tf br : Option String) (pv : ℚ),
      uploadSucceeds api af →
      jget (start_meme_job api af tf br pv) "status" =
        some (JVal.str "error")) ∧
    (∀ (api : Api) (af tf : String) (br : Option String) (srv mh gc : String),
      uploadSucceeds api af → uploadSucceeds api tf →
      jget (start_absrel_job api af tf br srv mh gc) "status" =
        some (JVal.str "error")) ∧
    (∀ (api : Api) (af tf dt gc : String) (st bi sa mp ms : ℤ),
      uploadSucceeds api af → uploadSucceeds api tf →
      jget (start_bgm_job api af tf dt gc st bi sa mp ms) "status" =
        some (JVal.str "error")) ∧
    (∀ (api : Api) (af tf bs gc srv pm : String) (pq qv : ℚ),
      uploadSucceeds api af → uploadSucceeds api tf →
      jget (start_contrast_fel_job api af tf bs gc srv pm pq qv) "status" =
        some (JVal.str "error")) ∧
    (∀ (api : Api) (af tf : String) (bft : ℤ),
      uploadSucceeds api af → uploadSucceeds api tf →
      jget (start_fade_job api af tf bft) "status" =
        some (JVal.str "error")) ∧
    (∀ (api : Api) (af tf gc : String) (gp : ℤ) (cp : ℚ),
      uploadSucceeds api af → uploadSucceeds api tf →
      jget (start_fubar_job api af tf gc gp cp) "status" =
        some (JVal.str "error")) ∧
    (∀ (api : Api) (af gc dt rm sv : String) (rc : ℤ) (mo : String),
      uploadSucceeds api af →
      jget (start_gard_job api af gc dt rm sv rc mo) "status" =
        some (JVal.str "error")) ∧
    (∀ (api : Api) (af gc ti : String) (rc : ℤ),
      uploadSucceeds api af →
      jget (start_multihit_job api af gc ti rc) "status" =
        some (JVal.str "error")) ∧
    (∀ (api : Api) (af tf gc : String) (sf : Bool),
      uploadSucceeds api af → uploadSucceeds api tf →
      jget (start_nrm_job api af tf gc sf) "status" =
        some (JVal.str "error")) ∧
    (∀ (api : Api) (af tf gc : String) (tb rb : Option (List String))
       (mo : String) (ra : ℤ) (kz : String),
      uploadSucceeds api af → uploadSucceeds api tf →
      jget (start_relax_job api af tf gc tb rb mo ra kz) "status" =
        some (JVal.str "error")) ∧
    (∀ (api : Api) (af tf gc br : String) (sa : ℤ) (pv : ℚ),
      uploadSucceeds api af → uploadSucceeds api tf →
      jget (start_slac_job api af tf gc br sa pv) "status" =
        some (JVal.str "error")) ∧
    (∀ (api : Api) (tf : String) (gr : ℤ) (cd : Option (List JObj))
       (re : ℤ) (we : ℚ) (ub : Bool),
      uploadSucceeds api tf →
      jget (start_slatkin_job api tf gr cd re we ub) "status" =
        some (JVal.str "error")) := by
  refine ⟨?_, ?_, ?_, ?_, ?_, ?_, ?_, ?_, ?_, ?_, ?_, ?_, ?_⟩
  · intro api af tf br pv hA
    exact start_fel_job_error api af tf br pv hA
  · intro api af tf br pv hA
    exact start_meme_job_error api af tf br pv hA
  · intro api af tf br srv mh gc hA _
    exact start_absrel_job_error api af tf br srv mh gc hA
  · intro api af tf dt gc st bi sa mp ms hA _
    exact start_bgm_job_error api af tf dt gc st bi sa mp ms hA
  · intro api af tf bs gc srv pm pq qv hA _
    exact start_contrast_fel_job_error api af tf bs gc srv pm pq qv hA
  · intro api af tf bft hA _
    exact start_fade_job_error api af tf bft hA
  · intro api af tf gc gp cp hA _
    exact start_fubar_job_error api af tf gc gp cp hA
  · intro api af gc dt rm sv rc mo hA
    exact start_gard_job_error api af gc dt rm sv rc mo hA
  · intro api af gc ti rc hA
    exact start_multihit_job_error api af gc ti rc hA
  · intro api af tf gc sf hA _
    exact start_nrm_job_error api af tf gc sf hA
  · intro api af tf gc tb rb mo ra kz hA _
    exact start_relax_job_error api af tf gc tb rb mo ra kz hA
  · intro api af tf gc br sa pv hA _
    exact start_slac_job_error api af tf gc br sa pv hA
  · intro api tf gr cd re we ub hT
    exact start_slatkin_job_error api tf gr cd re we ub hT

theorem c2_witness :
    uploadSucceeds apiHappy "aln.fasta" ∧
    uploadSucceeds apiHappy "tree.nwk" ∧
    jget (start_fel_job apiHappy "aln.fasta" (some "tree.nwk") none (1 / 10))
      "status" = some (JVal.str "error") ∧
    jget (start_meme_job apiHappy "aln.fasta" none none (1 / 10))
      "status" = some (JVal.str "error") ∧
    jget (start_absrel_job apiHappy "aln.fasta" "tree.nwk" none "Yes" "None"
      "Universal") "status" = some (JVal.str "error") ∧
    jget (start_bgm_job apiHappy "aln.fasta" "tree.nwk" "codon" "Universal"
      100000 10000 100 1 1) "status" = some (JVal.str "error") ∧
    jget (start_contrast_fel_job apiHappy "aln.fasta" "tree.nwk" "a,b"
      "Universal" "Yes" "Yes" (1 / 20) (1 / 5)) "status" =
      some (JVal.str "error") ∧
    jget (start_fade_job apiHappy "aln.fasta" "tree.nwk" 100) "status" =
      some (JVal.str "error") ∧
    jget (start_fubar_job apiHappy "aln.fasta" "tree.nwk" "Universal" 20
      (1 / 2)) "status" = some (JVal.str "error") ∧
    jget (start_gard_job apiHappy "aln.fasta" "Universal" "Nucleotide"
      "Normal" "None" 2 "JTT") "status" = some (JVal.str "error") ∧
    jget (start_multihit_job apiHappy "aln.fasta" "Universal" "No" 3)
      "status" = some (JVal.str "error") ∧
    jget (start_nrm_job apiHappy "aln.fasta" "tree.nwk" "Universal" false)
      "status" = some (JVal.str "error") ∧
    jget (start_relax_job apiHappy "aln.fasta" "tree.nwk" "Universal" none
      none "All" 3 "No") "status" = some (JVal.str "error") ∧
    jget (start_slac_job apiHappy "aln.fasta" "tree.nwk" "Universal" "All"
      100 (1 / 10)) "status" = some (JVal.str "error") ∧
    jget (start_slatkin_job apiHappy "tree.nwk" 2 none 1000 (1 / 5) true)
      "status" = some (JVal.str "error") :=
  ⟨rfl, rfl,
   c2_start_jobs_error.1 apiHappy "aln.fasta" (some "tree.nwk") none
     (1 / 10) rfl,
   c2_start_jobs_error.2.1 apiHappy "aln.fasta" none none (1 / 10) rfl,
   c2_start_jobs_error.2.2.1 apiHappy "aln.fasta" "tree.nwk" none "Yes"
     "None" "Universal" rfl rfl,
   c2_start_jobs_error.2.2.2.1 apiHappy "aln.fasta" "tree.nwk" "codon"
     "Universal" 100000 10000 100 1 1 rfl rfl,
   c2_start_jobs_error.2.2.2.2.1 apiHappy "aln.fasta" "tree.nwk" "a,b"
     "Universal" "Yes" "Yes" (1 / 20) (1 / 5) rfl rfl,
   c2_start_jobs_error.2.2.2.2.2.1 apiHappy "aln.fasta" "tree.nwk" 100 rfl
     rfl,
   c2_start_jobs_error.2.2.2.2.2.2.1 apiHappy "aln.fasta" "tree.nwk"
     "Universal" 20 (1 / 2) rfl rfl,
   c2_start_jobs_error.2.2.2.2.2.2.2.1 apiHappy "aln.fasta" "Universal"
     "Nucleotide" "Normal" "None" 2 "JTT" rfl,
   c2_start_jobs_error.2.2.2.2.2.2.2.2.1 apiHappy "aln.fasta" "Universal"
     "No" 3 rfl,
   c2_start_jobs_error.2.2.2.2.2.2.2.2.2.1 apiHappy "aln.fasta" "tree.nwk"
     "Universal" false rfl rfl,
   c2_start_jobs_error.2.2.2.2.2.2.2.2.2.2.1 apiHappy "aln.fasta"
     "tree.nwk" "Universal" none none "All" 3 "No" rfl rfl,
   c2_start_jobs_error.2.2.2.2.2.2.2.2.2.2.2.1 apiHappy "aln.fasta"
     "tree.nwk" "Universal" "All" 100 (1 / 10) rfl rfl,
   c2_start_jobs_error.2.2.2.2.2.2.2.2.2.2.2.2 apiHappy "tree.nwk" 2 none
     1000 (1 / 5) true rfl⟩

theorem c4_witness :
    apiDown.health = HttpResult.err "connection refused" ∧
    (get_available_methods apiDown).1 =
      Except.error (connErrMsg apiDown "connection refused") ∧
    (upload_file_to_datamonkey apiDown "aln.fasta").1 =
      errObj (connErrMsg apiDown "connection refused") ∧
    (check_datamonkey_api apiDown).1 =
      [("connected", JVal.bool false),
       ("url", JVal.str (get_api_url apiDown)),
       ("error", JVal.str (connErrMsg apiDown "connection refused"))] ∧
    start_busted_job apiDown "aln.fasta" none none =
      errObj (connErrMsg apiDown "connection refused") ∧
    run_fel apiDown "id1" "aln.fasta" none (1 / 10) =
      errObj (connErrMsg apiDown "connection refused") ∧
    run_meme apiDown "id1" "aln.fasta" none (1 / 10) =
      errObj (connErrMsg apiDown "connection refused") ∧
    (check_datamonkey_job_status apiDown "j1").1 =
      errObj (connErrMsg apiDown "connection refused") ∧
    (fetch_datamonkey_job_results apiDown "j1" none).1 =
      errObj (connErrMsg apiDown "connection refused") ∧
    start_fel_job apiDown "aln.fasta" none none (1 / 10) =
      errObj (connErrMsg apiDown "connection refused") ∧
    start_slatkin_job apiDown "tree.nwk" 2 none 1000 (1 / 5) true =
      errObj (connErrMsg apiDown "connection refused") ∧
    apiHappy.health = HttpResult.ok [("status", JVal.str "healthy")] ∧
    (get_available_methods apiHappy).1 =
      Except.ok [("methods", JVal.arr availableMethodsList)] ∧
    apiEndpointsFail.jobStatus "j1" = HttpResult.err "502 Bad Gateway" ∧
    (check_datamonkey_job_status apiEndpointsFail "j1").1 =
      errObj "502 Bad Gateway" ∧
    (fetch_datamonkey_job_results apiEndpointsFail "j1" none).1 =
      errObj "502 Bad Gateway" ∧
    apiEndpointsFail.datasets "aln.fasta" =
      HttpResult.err "502 Bad Gateway" ∧
    (upload_file_to_datamonkey apiEndpointsFail "aln.fasta").1 =
      errObj "502 Bad Gateway" := by
  have hc := c4_boundary_policy.2.2.1 apiDown "connection refused" rfl
  have hr := c4_boundary_policy.2.2.2.1 apiEndpointsFail "j1"
    "502 Bad Gateway" [("status", JVal.str "healthy")] rfl rfl
  exact ⟨rfl,
    c4_boundary_policy.1 apiDown "connection refused" rfl,
    hc.1 "aln.fasta",
    hc.2.1,
    hc.2.2.1 "aln.fasta" none none,
    hc.2.2.2.1 "id1" "aln.fasta" none (1 / 10),
    hc.2.2.2.2.1 "id1" "aln.fasta" none (1 / 10),
    hc.2.2.2.2.2.1 "j1",
    hc.2.2.2.2.2.2.1 "j1" none,
    hc.2.2.2.2.2.2.2.1 "aln.fasta" none none (1 / 10),
    hc.2.2.2.2.2.2.2.2.2.2.2.2.2.2.2.2.2.2.2 "tree.nwk" 2 none 1000
      (1 / 5) true,
    rfl,
    c4_boundary_policy.2.1 apiHappy [("status", JVal.str "healthy")] rfl,
    rfl,
    hr.1,
    hr.2 none,
    rfl,
    c4_boundary_policy.2.2.2.2 apiEndpointsFail "aln.fasta"
      "502 Bad Gateway" [("status", JVal.str "healthy")] rfl rfl rfl⟩

theorem jget_append (a b : JObj) (k : String) :
    jget (a ++ b) k = (jget a k).or (jget b k) := by
  unfold jget
  rw [List.find?_append]
  cases List.find? (fun p => p.1 == k) a with
  | none => rfl
  | some x => rfl

theorem startPayloadBase_no_pvalue (ah : JObj) (th : Option JObj) :
    jget (startPayloadBase ah th) "pvalue" = none := by
  unfold startPayloadBase
  cases th with
  | none => rfl
  | some t =>
    dsimp only
    by_cases ht : (JVal.obj t).truthy = true
    · rw [if_pos ht]
      rfl
    · rw [if_neg ht]
      rfl

theorem startPayloadBase_no_branches (ah : JObj) (th : Option JObj) :
    jget (startPayloadBase ah th) "branches" = none := by
  unfold startPayloadBase
  cases th with
  | none => rfl
  | some t =>
    dsimp only
    by_cases ht : (JVal.obj t).truthy = true
    · rw [if_pos ht]
      rfl
    · rw [if_neg ht]
      rfl

theorem startPayloadBase_tree_of_truthy (ah : JObj) (t : JObj)
    (ht : (JVal.obj t).truthy = true) :
    jget (startPayloadBase ah (some t)) "tree" = some (JVal.obj t) := by
  unfold startPayloadBase
  dsimp only
  rw [if_pos ht]
  rfl

theorem addMethodParams_jget_tree (method : String) (kw p : JObj) :
    jget (addMethodParams method kw p) "tree" = jget p "tree" := by
  unfold addMethodParams
  split_ifs with h1 h2
  · cases hb : jget kw "branches" with
    | none => rfl
    | some v =>
      dsimp only
      by_cases htv : v.truthy = true
      · have e1 : (if v.truthy = true then p ++ [("branches", v)] else p) =
            p ++ [("branches", v)] := if_pos htv
        rw [e1, jget_append]
        cases jget p "tree" with
        | none => rfl
        | some x => rfl
      · have e1 : (if v.truthy = true then p ++ [("branches", v)] else p) =
            p := if_neg htv
        rw [e1]
  · cases hb : jget kw "pvalue" with
    | none => rfl
    | some v =>
      dsimp only
      by_cases htv : v.truthy = true
      · have e1 : (if v.truthy = true then p ++ [("pvalue", v)] else p) =
            p ++ [("pvalue", v)] := if_pos htv
        rw [e1, jget_append]
        cases jget p "tree" with
        | none => rfl
        | some x => rfl
      · have e1 : (if v.truthy = true then p ++ [("pvalue", v)] else p) =
            p := if_neg htv
        rw [e1]
  · rfl

theorem addMethodParams_pvalue (method : String) (kw p : JObj)
    (hm : method = "FEL" ∨ method = "MEME")
    (hp : jget p "pvalue" = none) :
    jget (addMethodParams method kw p) "pvalue" =
      (match jget kw "pvalue" with
       | some v => if v.truthy = true then some v else none
       | none => none) := by
  rcases hm with rfl | rfl <;>
  · unfold addMethodParams
    rw [if_neg (by decide), if_pos (by decide)]
    cases hv : jget kw "pvalue" with
    | none => exact hp
    | some v =>
      dsimp only
      by_cases htv : v.truthy = true
      · have e1 : (if v.truthy = true then p ++ [("pvalue", v)] else p) =
            p ++ [("pvalue", v)] := if_pos htv
        have e2 : (if v.truthy = true then some v else none : Option JVal) =
            some v := if_pos htv
        rw [e1, e2, jget_append, hp]
        rfl
      · have e1 : (if v.truthy = true then p ++ [("pvalue", v)] else p) =
            p := if_neg htv
        have e2 : (if v.truthy = true then some v else none : Option JVal) =
            none := if_neg htv
        rw [e1, e2, hp]

theorem addMethodParams_branches (kw p : JObj)
    (hp : jget p "branches" = none) :
    jget (addMethodParams "BUSTED" kw p) "branches" =
      (match jget kw "branches" with
       | some v => if v.truthy = true then some v else none
       | none => none) := by
  unfold addMethodParams
  rw [if_pos (by decide : ("BUSTED" : String) = "BUSTED")]
  cases hv : jget kw "branches" with
  | none => exact hp
  | some v =>
    dsimp only
    by_cases htv : v.truthy = true
    · have e1 : (if v.truthy = true then p ++ [("branches", v)] else p) =
          p ++ [("branches", v)] := if_pos htv
      have e2 : (if v.truthy = true then some v else none : Option JVal) =
          some v := if_pos htv
      rw [e1, e2, jget_append, hp]
      rfl
    · have e1 : (if v.truthy = true then p ++ [("branches", v)] else p) =
          p := if_neg htv
      have e2 : (if v.truthy = true then some v else none : Option JVal) =
          none := if_neg htv
      rw [e1, e2, hp]

theorem num_truthy_of_ne (q : ℚ) (h : q ≠ 0) :
    (JVal.num q).truthy = true := by
  simp [JVal.truthy, h]

theorem felKwargs_default_pvalue :
    jget (runFelKwargsOfCall none) "pvalue" = some (JVal.num (1 / 10)) :=
  rfl

/-- Claim C6 fails on the code: an omitted optional parameter is not
always left out of the payload.  `run_fel` declares `pvalue` with default
0.1 and always forwards it in `kwargs` (server.py lines 441, 456), so the
worker payload carries `pvalue = 0.1` even for a call that never supplied
one; witnessed below by the call with `pvalue` omitted. -/
theorem c6_counterexample : ¬ c6Statement := by
  intro h
  have hkey : hasKey (startPayload [] none "FEL" (runFelKwargsOfCall none))
      "pvalue" = true := by
    unfold hasKey startPayload
    rw [addMethodParams_pvalue "FEL" _ _ (Or.inl rfl)
      (startPayloadBase_no_pvalue [] none), felKwargs_default_pvalue]
    dsimp only
    rw [if_pos (num_truthy_of_ne _ (by norm_num))]
    rfl
  exact absurd (h [] none none hkey) (by decide)

/-- Claim C6 amended: inclusion in the job-start payload is keyed on the
truthiness of the values present in the worker's `kwargs`, not on what the
caller explicitly supplied: the `tree` entry is present exactly when a
tree file was given, the FEL/MEME `pvalue` and the BUSTED `branches`
entries are present exactly when the corresponding `kwargs` value is
truthy — and because the tool layer injects declared defaults (`run_fel`
forwards `pvalue = 0.1` when the caller omitted it), an omitted optional
parameter can still be sent. -/
theorem c6_payload_parameter_inclusion :
    (∀ (api : Api) (method af : String) (tf : Option String) (kw : JObj),
      jget (buildStartPayload api method af tf kw) "tree" =
        tf.map (fun t => JVal.obj (uploadVal api t))) ∧
    (∀ (method : String) (ah : JObj) (th : Option JObj) (kw : JObj),
      method = "FEL" ∨ method = "MEME" →
      jget (startPayload ah th method kw) "pvalue" =
        (match jget kw "pvalue" with
         | some v => if v.truthy = true then some v else none
         | none => none)) ∧
    (∀ (ah : JObj) (th : Option JObj) (kw : JObj),
      jget (startPayload ah th "BUSTED" kw) "branches" =
        (match jget kw "branches" with
         | some v => if v.truthy = true then some v else none
         | none => none)) ∧
    (∀ (ah : JObj) (th : Option JObj),
      jget (startPayload ah th "FEL" (runFelKwargsOfCall none)) "pvalue" =
        some (JVal.num (1 / 10))) := by
  refine ⟨?_, ?_, ?_, ?_⟩
  · intro api method af tf kw
    unfold buildStartPayload startPayload
    rw [addMethodParams_jget_tree]
    cases tf with
    | none => rfl
    | some t =>
      dsimp only [Option.map]
      rw [startPayloadBase_tree_of_truthy _ _ (uploadVal_truthy api t)]
  · intro method ah th kw hm
    unfold startPayload
    exact addMethodParams_pvalue method kw _ hm
      (startPayloadBase_no_pvalue ah th)
  · intro ah th kw
    unfold startPayload
    exact addMethodParams_branches kw _ (startPayloadBase_no_branches ah th)
  · intro ah th
    unfold startPayload
    rw [addMethodParams_pvalue "FEL" (runFelKwargsOfCall none) _
      (Or.inl rfl) (startPayloadBase_no_pvalue ah th),
      felKwargs_default_pvalue]
    dsimp only
    rw [if_pos (num_truthy_of_ne _ (by norm_num))]

theorem c6_witness :
    (("FEL" : String) = "FEL" ∨ ("FEL" : String) = "MEME") ∧
    jget (startPayload [("status", JVal.str "success")] none "FEL"
      [("pvalue", JVal.num (1 / 4))]) "pvalue" = some (JVal.num (1 / 4)) :=
  ⟨Or.inl rfl, by
    rw [c6_payload_parameter_inclusion.2.1 "FEL"
      [("status", JVal.str "success")] none [("pvalue", JVal.num (1 / 4))]
      (Or.inl rfl),
      show jget [("pvalue", JVal.num (1 / 4))] "pvalue" =
        some (JVal.num (1 / 4)) from rfl]
    dsimp only
    rw [if_pos (num_truthy_of_ne _ (by norm_num))]⟩

/-- Claim C10: in the shared payload construction used by both the
synchronous path (server.py lines 124-138) and the background worker
(lines 269-283), a caller-supplied FEL/MEME `pvalue` of 0 and a BUSTED
`branches` of "" are excluded from the payload even though they are
present in `kwargs`, because inclusion is guarded by Python truthiness
(`if kwargs.get(...)`) rather than by key presence. -/
theorem c10_falsy_params_excluded :
    (∀ (ah : JObj) (th : Option JObj),
      jget (startPayload ah th "FEL" [("pvalue", JVal.num 0)]) "pvalue" =
        none) ∧
    (∀ (ah : JObj) (th : Option JObj),
      jget (startPayload ah th "MEME" [("pvalue", JVal.num 0)]) "pvalue" =
        none) ∧
    (∀ (ah : JObj) (th : Option JObj),
      jget (startPayload ah th "BUSTED" [("branches", JVal.str "")])
        "branches" = none) ∧
    jget [("pvalue", JVal.num 0)] "pvalue" = some (JVal.num 0) ∧
    jget [("branches", JVal.str "")] "branches" = some (JVal.str "") := by
  refine ⟨?_, ?_, ?_, rfl, rfl⟩
  · intro ah th
    unfold startPayload
    rw [addMethodParams_pvalue "FEL" _ _ (Or.inl rfl)
      (startPayloadBase_no_pvalue ah th)]
    rfl
  · intro ah th
    unfold startPayload
    rw [addMethodParams_pvalue "MEME" _ _ (Or.inr rfl)
      (startPayloadBase_no_pvalue ah th)]
    rfl
  · intro ah th
    unfold startPayload
    rw [addMethodParams_branches _ _ (startPayloadBase_no_branches ah th)]
    rfl

theorem buildStartPayload_eq (api : Api) (method af : String)
    (tf : Option String) (kw : JObj) :
    startPayload (upload_file_to_datamonkey api af).1
      ((tf.map (upload_file_to_datamonkey api)).map (fun x => x.1))
      method kw =
      buildStartPayload api method af tf kw := by
  unfold buildStartPayload uploadVal
  cases tf with
  | none => rfl
  | some t => rfl

theorem worker_requests (api : Api) (tempDir method alignment_file : String)
    (tree_file : Option String) (kwargs : JObj) :
    (run_hyphy_method_async_worker api tempDir method alignment_file
      tree_file kwargs).requests =
      (upload_file_to_datamonkey api alignment_file).2 ++
      (match tree_file.map (upload_file_to_datamonkey api) with
        | some x => x.2
        | none => []) ++
      [Request.methodStart (method.toLower ++ "-start")
        (JVal.obj (buildStartPayload api method alignment_file tree_file
          kwargs))] := by
  rw [← buildStartPayload_eq api method alignment_file tree_file kwargs]
  unfold run_hyphy_method_async_worker
  dsimp only
  cases hms : api.methodStart (method.toLower ++ "-start")
      (JVal.obj (startPayload
        (upload_file_to_datamonkey api alignment_file).1
        ((tree_file.map (upload_file_to_datamonkey api)).map (fun x => x.1))
        method kwargs)) with
  | err m => rfl
  | ok body =>
    cases hjid : jget body "job_id" with
    | none => simp only [hjid]
    | some jid => simp only [hjid]

theorem addMethodParams_jget_alignment (method : String) (kw p : JObj) :
    jget (addMethodParams method kw p) "alignment" = jget p "alignment" := by
  unfold addMethodParams
  split_ifs with h1 h2
  · cases hb : jget kw "branches" with
    | none => rfl
    | some v =>
      dsimp only
      by_cases htv : v.truthy = true
      · have e1 : (if v.truthy = true then p ++ [("branches", v)] else p) =
            p ++ [("branches", v)] := if_pos htv
        rw [e1, jget_append]
        cases jget p "alignment" with
        | none => rfl
        | some x => rfl
      · have e1 : (if v.truthy = true then p ++ [("branches", v)] else p) =
            p := if_neg htv
        rw [e1]
  · cases hb : jget kw "pvalue" with
    | none => rfl
    | some v =>
      dsimp only
      by_cases htv : v.truthy = true
      · have e1 : (if v.truthy = true then p ++ [("pvalue", v)] else p) =
            p ++ [("pvalue", v)] := if_pos htv
        rw [e1, jget_append]
        cases jget p "alignment" with
        | none => rfl
        | some x => rfl
      · have e1 : (if v.truthy = true then p ++ [("pvalue", v)] else p) =
            p := if_neg htv
        rw [e1]
  · rfl

theorem startPayloadBase_alignment (ah : JObj) (th : Option JObj) :
    jget (startPayloadBase ah th) "alignment" = some (JVal.obj ah) := by
  unfold startPayloadBase
  cases th with
  | none => rfl
  | some t =>
    dsimp only
    by_cases ht : (JVal.obj t).truthy = true
    · rw [if_pos ht]
      rfl
    · rw [if_neg ht]
      rfl

/-- Claim C9: both the background worker and the synchronous path set the
payload's `alignment` (and, when a tree file is given, `tree`) entry to
the entire dictionary returned by `upload_file_to_datamonkey` — never to
the opaque handle string alone — and they submit the job-start request
unconditionally, without inspecting the upload result's status, so a
failed upload still leads to a submission attempt with the error
dictionary embedded as the alignment. -/
theorem c9_payload_embeds_upload_dicts :
    (∀ (api : Api) (tempDir method alignment_file : String)
       (tree_file : Option String) (kwargs : JObj),
      Request.methodStart (method.toLower ++ "-start")
        (JVal.obj (buildStartPayload api method alignment_file tree_file
          kwargs)) ∈
        (run_hyphy_method_async_worker api tempDir method alignment_file
          tree_file kwargs).requests) ∧
    (∀ (api : Api) (method alignment_file : String) (tf : Option String)
       (kw : JObj),
      jget (buildStartPayload api method alignment_file tf kw) "alignment" =
        some (JVal.obj (uploadVal api alignment_file))) ∧
    (∀ (api : Api) (method alignment_file t : String) (kw : JObj),
      jget (buildStartPayload api method alignment_file (some t) kw)
        "tree" = some (JVal.obj (uploadVal api t))) ∧
    (∀ (api : Api) (tempDir method alignment_file : String)
       (tree_file : Option String) (kwargs : JObj),
      jget (uploadVal api alignment_file) "status" =
        some (JVal.str "error") →
      Request.methodStart (method.toLower ++ "-start")
        (JVal.obj (buildStartPayload api method alignment_file tree_file
          kwargs)) ∈
        (run_hyphy_method_async_worker api tempDir method alignment_file
          tree_file kwargs).requests) ∧
    (∀ (api : Api) (tempDir : Option String) (method alignment_file : String)
       (tree_file : Option String) (kwargs : JObj) (b : JObj),
      api.health = HttpResult.ok b →
      Request.methodStart (method.toLower ++ "-start")
        (JVal.obj (buildStartPayload api method alignment_file tree_file
          kwargs)) ∈
        (run_hyphy_method_sync api tempDir method alignment_file tree_file
          kwargs).requests) := by
  refine ⟨?_, ?_, ?_, ?_, ?_⟩
  · intro api tempDir method af tf kw
    rw [worker_requests]
    simp
  · intro api method af tf kw
    unfold buildStartPayload startPayload
    rw [addMethodParams_jget_alignment]
    exact startPayloadBase_alignment _ _
  · intro api method af t kw
    unfold buildStartPayload startPayload
    rw [addMethodParams_jget_tree]
    dsimp only [Option.map]
    exact startPayloadBase_tree_of_truthy _ _ (uploadVal_truthy api t)
  · intro api tempDir method af tf kw _
    rw [worker_requests]
    simp
  · intro api tempDir method af tf kw b hb
    rw [← buildStartPayload_eq api method af tf kw]
    unfold run_hyphy_method_sync
    rw [hb]
    dsimp only
    cases hms : api.methodStart (method.toLower ++ "-start")
        (JVal.obj (startPayload (upload_file_to_datamonkey api af).1
          ((tf.map (upload_file_to_datamonkey api)).map (fun x => x.1))
          method kw)) with
    | err m => simp
    | ok body =>
      cases hjid : jget body "job_id" with
      | none =>
        simp only [hjid]
        simp
      | some jid =>
        simp only [hjid]
        simp

theorem c9_witness :
    jget (uploadVal apiNoFile "missing.fasta") "status" =
      some (JVal.str "error") ∧
    Request.methodStart ("FEL".toLower ++ "-start")
      (JVal.obj (buildStartPayload apiNoFile "FEL" "missing.fasta" none []))
      ∈ (run_hyphy_method_async_worker apiNoFile "/tmp" "FEL"
          "missing.fasta" none []).requests ∧
    apiHappy.health = HttpResult.ok [("status", JVal.str "healthy")] ∧
    Request.methodStart ("FEL".toLower ++ "-start")
      (JVal.obj (buildStartPayload apiHappy "FEL" "aln.fasta" none []))
      ∈ (run_hyphy_method_sync apiHappy (some "/tmp") "FEL" "aln.fasta"
          none []).requests :=
  ⟨rfl,
   c9_payload_embeds_upload_dicts.2.2.2.1 apiNoFile "/tmp" "FEL"
     "missing.fasta" none [] rfl,
   rfl,
   c9_payload_embeds_upload_dicts.2.2.2.2 apiHappy (some "/tmp") "FEL"
     "aln.fasta" none [] [("status", JVal.str "healthy")] rfl⟩

theorem felClassify_cons (s : String) (p b a : ℚ) (l : JObj) (pv : ℚ) :
    felClassify ((mkFelSite s p b a) :: l) pv =
      if p ≤ pv then
        if a < b then
          (match pyInt? s with
           | some k => (felClassify l pv).map (fun r => (k :: r.1, r.2))
           | none =>
             Except.error ("invalid literal for int with base 10: " ++ s))
        else
          (match pyInt? s with
           | some k => (felClassify l pv).map (fun r => (r.1, k :: r.2))
           | none =>
             Except.error ("invalid literal for int with base 10: " ++ s))
      else felClassify l pv := rfl

theorem felClassify_filter (pv : ℚ) :
    ∀ (sites : List (String × ℚ × ℚ × ℚ)),
    (∀ x ∈ sites, (pyInt? x.1).isSome = true) →
    felClassify (sites.map (fun x => mkFelSite x.1 x.2.1 x.2.2.1 x.2.2.2))
      pv =
      Except.ok
        (sites.filterMap (fun x =>
          if x.2.1 ≤ pv ∧ x.2.2.2 < x.2.2.1 then pyInt? x.1 else none),
         sites.filterMap (fun x =>
          if x.2.1 ≤ pv ∧ ¬ x.2.2.2 < x.2.2.1 then pyInt? x.1 else none))
  | [], _ => rfl
  | (s, p, b, a) :: rest, h => by
    have hk : (pyInt? s).isSome = true := h (s, p, b, a) (by simp)
    obtain ⟨k, hk2⟩ := Option.isSome_iff_exists.mp hk
    have ih := felClassify_filter pv rest (fun x hx => h x (by simp [hx]))
    simp only [List.map_cons]
    rw [felClassify_cons]
    by_cases hple : p ≤ pv
    · rw [if_pos hple]
      by_cases hab : a < b
      · rw [if_pos hab, hk2]
        dsimp only
        rw [ih]
        simp [Except.map, List.filterMap_cons, hk2, hple, hab]
      · rw [if_neg hab, hk2]
        dsimp only
        rw [ih]
        simp [Except.map, List.filterMap_cons, hk2, hple, hab,
          not_lt.mp hab]
    · rw [if_neg hple]
      rw [ih]
      simp [List.filterMap_cons, hple]

/-- Claim C5: on the scenario payload whose MLE section holds exactly
sites 1 (p-value 0.05, beta 2, alpha 1) and 2 (p-value 0.2, beta 1,
alpha 3) with threshold pvalue = 0.1, the FEL summary derivation of
`run_fel` yields positive sites [1], negative sites [], and totals 1 and
0; and in general a site is counted exactly when its p-value is at most
the threshold, classified positive when beta > alpha and negative
otherwise. -/
theorem c5_fel_summary :
    felSiteLists [("MLE", JVal.obj
      [mkFelSite "1" (1 / 20) 2 1, mkFelSite "2" (1 / 5) 1 3])]
      ((1 : ℚ) / 10) = Except.ok ([1], []) ∧
    felSummaryResults [("MLE", JVal.obj
      [mkFelSite "1" (1 / 20) 2 1, mkFelSite "2" (1 / 5) 1 3])]
      ((1 : ℚ) / 10) =
      Except.ok
        [("positive_selection_sites", JVal.arr [JVal.num 1]),
         ("negative_selection_sites", JVal.arr []),
         ("total_positive_sites", JVal.num 1),
         ("total_negative_sites", JVal.num 0)] ∧
    (∀ (pv : ℚ) (sites : List (String × ℚ × ℚ × ℚ)),
      (∀ x ∈ sites, (pyInt? x.1).isSome = true) →
      felClassify (sites.map (fun x => mkFelSite x.1 x.2.1 x.2.2.1 x.2.2.2))
        pv =
        Except.ok
          (sites.filterMap (fun x =>
            if x.2.1 ≤ pv ∧ x.2.2.2 < x.2.2.1 then pyInt? x.1 else none),
           sites.filterMap (fun x =>
            if x.2.1 ≤ pv ∧ ¬ x.2.2.2 < x.2.2.1 then pyInt? x.1
            else none))) := by
  have h1 : felClassify [mkFelSite "1" (1 / 20) 2 1, mkFelSite "2" (1 / 5) 1 3]
      ((1 : ℚ) / 10) = Except.ok ([1], []) := by
    rw [felClassify_cons, if_pos (by norm_num : (1 : ℚ) / 20 ≤ 1 / 10),
      if_pos (by norm_num : (1 : ℚ) < 2),
      show pyInt? "1" = some 1 from rfl]
    dsimp only
    rw [felClassify_cons, if_neg (by norm_num : ¬ ((1 : ℚ) / 5 ≤ 1 / 10))]
    rfl
  refine ⟨h1, ?_, fun pv sites h => felClassify_filter pv sites h⟩
  unfold felSummaryResults
  rw [show felSiteLists [("MLE", JVal.obj
    [mkFelSite "1" (1 / 20) 2 1, mkFelSite "2" (1 / 5) 1 3])]
    ((1 : ℚ) / 10) = Except.ok ([1], []) from h1]
  rfl

theorem c5_witness :
    (∀ x ∈ [("1", (1 : ℚ) / 20, (2 : ℚ), (1 : ℚ)),
            ("2", (1 : ℚ) / 5, (1 : ℚ), (3 : ℚ))],
      (pyInt? x.1).isSome = true) ∧
    felClassify ([("1", (1 : ℚ) / 20, (2 : ℚ), (1 : ℚ)),
                  ("2", (1 : ℚ) / 5, (1 : ℚ), (3 : ℚ))].map
      (fun x => mkFelSite x.1 x.2.1 x.2.2.1 x.2.2.2)) ((1 : ℚ) / 10) =
      Except.ok
        ([("1", (1 : ℚ) / 20, (2 : ℚ), (1 : ℚ)),
          ("2", (1 : ℚ) / 5, (1 : ℚ), (3 : ℚ))].filterMap (fun x =>
          if x.2.1 ≤ (1 : ℚ) / 10 ∧ x.2.2.2 < x.2.2.1 then pyInt? x.1
          else none),
         [("1", (1 : ℚ) / 20, (2 : ℚ), (1 : ℚ)),
          ("2", (1 : ℚ) / 5, (1 : ℚ), (3 : ℚ))].filterMap (fun x =>
          if x.2.1 ≤ (1 : ℚ) / 10 ∧ ¬ x.2.2.2 < x.2.2.1 then pyInt? x.1
          else none)) := by
  have hmem : ∀ x ∈ [("1", (1 : ℚ) / 20, (2 : ℚ), (1 : ℚ)),
      ("2", (1 : ℚ) / 5, (1 : ℚ), (3 : ℚ))], (pyInt? x.1).isSome = true := by
    intro x hx
    simp only [List.mem_cons, List.mem_singleton] at hx
    rcases hx with rfl | rfl | hx
    · rfl
    · rfl
    · simp at hx
  exact ⟨hmem, c5_fel_summary.2.2 ((1 : ℚ) / 10) _ hmem⟩

theorem upload_no_polls (api : Api) (p : String) :
    countPolls (upload_file_to_datamonkey api p).2 = 0 := by
  rcases upload_shape api p with ⟨m, hm⟩ | ⟨m, hm⟩ | ⟨h, hm⟩ <;>
    rw [hm] <;> rfl

theorem syncPollLoop_polls_le (api : Api) (tempDir : Option String)
    (method : String) (jid : JVal) :
    ∀ (fuel attempt : Nat),
    countPolls (syncPollLoop api tempDir method jid fuel attempt).2.1 ≤ fuel
  | 0, _ => by
    rw [syncPollLoop]
    exact Nat.le_refl 0
  | fuel + 1, attempt => by
    rw [syncPollLoop]
    cases hpr : api.pollResult (jvalAsId jid) attempt with
    | err m => simp [countPolls]
    | ok status_data =>
      dsimp only
      by_cases h1 : statusIs status_data "completed" = true
      · rw [if_pos h1]
        cases tempDir with
        | none => simp [countPolls]
        | some td => simp [countPolls]
      · rw [if_neg h1]
        by_cases h2 : statusIs status_data "error" = true
        · rw [if_pos h2]
          simp [countPolls]
        · rw [if_neg h2]
          dsimp only
          have ih := syncPollLoop_polls_le api tempDir method jid fuel
            (attempt + 1)
          simp [countPolls, List.countP_cons] at ih ⊢
          omega

theorem syncPollLoop_timeout (api : Api) (tempDir : Option String)
    (method : String) (jid : JVal) :
    ∀ (fuel attempt : Nat),
    (∀ t, t < fuel →
      nonTerminalPoll (api.pollResult (jvalAsId jid) (attempt + t))) →
    (syncPollLoop api tempDir method jid fuel attempt).1 =
      Except.error (timeoutMsg method) ∧
    countPolls (syncPollLoop api tempDir method jid fuel attempt).2.1 =
      fuel ∧
    (syncPollLoop api tempDir method jid fuel attempt).2.2 = 10 * fuel
  | 0, attempt, _ => ⟨rfl, rfl, rfl⟩
  | fuel + 1, attempt, h => by
    obtain ⟨body, hb, hc, he⟩ := h 0 (Nat.succ_pos _)
    rw [Nat.add_zero] at hb
    rw [syncPollLoop, hb]
    dsimp only
    rw [if_neg (by simp [hc]), if_neg (by simp [he])]
    dsimp only
    have ih := syncPollLoop_timeout api tempDir method jid fuel (attempt + 1)
      (fun t ht => by
        have h2 := h (t + 1) (by omega)
        rwa [show attempt + (t + 1) = attempt + 1 + t from by omega] at h2)
    refine ⟨ih.1, ?_, ?_⟩
    · simp only [countPolls, List.countP_cons] at ih ⊢
      rw [ih.2.1]
      simp
    · rw [ih.2.2]
      omega

/-- Claim C8: the synchronous path always terminates — it polls the
remote status at most `max_attempts = 60` times — and when the remote
reports neither completion nor error within that bound it fails with the
Timeout-kind error after 60 polls and 60 × 10 = 600 slept seconds; the
background worker of the asynchronous path performs no status polling at
all, hence enforces no such timeout. -/
theorem c8_sync_timeout_async_unbounded :
    (∀ (api : Api) (tempDir : Option String) (method af : String)
       (tf : Option String) (kw : JObj),
      countPolls (run_hyphy_method_sync api tempDir method af tf
        kw).requests ≤ 60) ∧
    (∀ (api : Api) (tempDir : Option String) (method af : String)
       (tf : Option String) (kw : JObj) (b startBody : JObj) (jid : JVal),
      api.health = HttpResult.ok b →
      api.methodStart (method.toLower ++ "-start")
        (JVal.obj (buildStartPayload api method af tf kw)) =
        HttpResult.ok startBody →
      jget startBody "job_id" = some jid →
      (∀ t, t < 60 → nonTerminalPoll (api.pollResult (jvalAsId jid) t)) →
      (run_hyphy_method_sync api tempDir method af tf kw).result =
        Except.error (syncWrapMsg method (timeoutMsg method)) ∧
      countPolls (run_hyphy_method_sync api tempDir method af tf
        kw).requests = 60 ∧
      (run_hyphy_method_sync api tempDir method af tf kw).sleptSeconds =
        600) ∧
    (∀ (api : Api) (tempDir method af : String) (tf : Option String)
       (kw : JObj),
      countPolls (run_hyphy_method_async_worker api tempDir method af tf
        kw).requests = 0) := by
  refine ⟨?_, ?_, ?_⟩
  · intro api tempDir method af tf kw
    unfold run_hyphy_method_sync
    cases api.health with
    | err m => simp [countPolls]
    | ok b =>
      dsimp only
      cases hms : api.methodStart (method.toLower ++ "-start")
          (JVal.obj (startPayload (upload_file_to_datamonkey api af).1
            ((tf.map (upload_file_to_datamonkey api)).map (fun x => x.1))
            method kw)) with
      | err m =>
        simp only [countPolls, List.countP_append, List.countP_cons]
        have h1 := upload_no_polls api af
        simp only [countPolls] at h1
        cases tf with
        | none => simp [h1]
        | some t =>
          have h2 := upload_no_polls api t
          simp only [countPolls] at h2
          simp [h1, h2]
      | ok body =>
        cases hjid : jget body "job_id" with
        | none =>
          simp only [hjid]
          simp only [countPolls, List.countP_append, List.countP_cons]
          have h1 := upload_no_polls api af
          simp only [countPolls] at h1
          cases tf with
          | none => simp [h1]
          | some t =>
            have h2 := upload_no_polls api t
            simp only [countPolls] at h2
            simp [h1, h2]
        | some jid =>
          simp only [hjid]
          have hloop := syncPollLoop_polls_le api tempDir method jid 60 0
          simp only [countPolls, List.countP_append, List.countP_cons]
            at hloop ⊢
          have h1 := upload_no_polls api af
          simp only [countPolls] at h1
          cases tf with
          | none =>
            simp [h1]
            omega
          | some t =>
            have h2 := upload_no_polls api t
            simp only [countPolls] at h2
            simp [h1, h2]
            omega
  · intro api tempDir method af tf kw b startBody jid hb hms hjid hpoll
    unfold run_hyphy_method_sync
    rw [hb]
    dsimp only
    rw [buildStartPayload_eq api method af tf kw, hms]
    dsimp only
    rw [hjid]
    dsimp only
    have hloop := syncPollLoop_timeout api tempDir method jid 60 0
      (fun t ht => by simpa using hpoll t ht)
    refine ⟨?_, ?_, ?_⟩
    · rw [hloop.1]
    · simp only [countPolls, List.countP_append, List.countP_cons]
      have h1 := upload_no_polls api af
      simp only [countPolls] at h1
      have h3 := hloop.2.1
      simp only [countPolls] at h3
      cases tf with
      | none => simp [h1, h3]
      | some t =>
        have h2 := upload_no_polls api t
        simp only [countPolls] at h2
        simp [h1, h2, h3]
    · exact hloop.2.2
  · intro api tempDir method af tf kw
    rw [worker_requests]
    simp only [countPolls, List.countP_append, List.countP_cons]
    have h1 := upload_no_polls api af
    simp only [countPolls] at h1
    cases tf with
    | none => simp [h1]
    | some t =>
      have h2 := upload_no_polls api t
      simp only [countPolls] at h2
      simp [h1, h2]

theorem c8_witness :
    apiHappy.health = HttpResult.ok [("status", JVal.str "healthy")] ∧
    nonTerminalPoll (apiHappy.pollResult "rjob1" 0) ∧
    (run_hyphy_method_sync apiHappy (some "/tmp") "FEL" "aln.fasta" none
      []).result = Except.error (syncWrapMsg "FEL" (timeoutMsg "FEL")) ∧
    countPolls (run_hyphy_method_sync apiHappy (some "/tmp") "FEL"
      "aln.fasta" none []).requests = 60 ∧
    (run_hyphy_method_sync apiHappy (some "/tmp") "FEL" "aln.fasta" none
      []).sleptSeconds = 600 ∧
    countPolls (run_hyphy_method_async_worker apiHappy "/tmp" "FEL"
      "aln.fasta" none []).requests = 0 := by
  have h := c8_sync_timeout_async_unbounded.2.1 apiHappy (some "/tmp")
    "FEL" "aln.fasta" none [] [("status", JVal.str "healthy")]
    [("job_id", JVal.str "rjob1")] (JVal.str "rjob1") rfl rfl rfl
    (fun t ht => ⟨[("status", JVal.str "running")], rfl, rfl, rfl⟩)
  exact ⟨rfl, ⟨[("status", JVal.str "running")], rfl, rfl, rfl⟩, h.1,
    h.2.1, h.2.2,
    c8_sync_timeout_async_unbounded.2.2 apiHappy "/tmp" "FEL" "aln.fasta"
      none []⟩
